import Mathlib

/-!
Verification of the year-extraction and activity/fade model of
`volcano_explorer.py` (repository `delorianv/volcano-eruptions`).

The source's `extract_year` is `re.search(r"(-?\d{3,4})", str(s))` followed by
`int(match.group(1))`.  We embed the regex search faithfully: `re.search` tries
every start position from the left; at a position the engine first consumes an
optional literal `-`, then greedily 3 or 4 decimal digits (4 preferred).

The source's `compute_color` / `update_map` pair is embedded twice: once
with exact rational arithmetic for the fade fraction and Python's `int()`
(truncation toward zero) for the alpha conversion, and once under faithful
IEEE-754 binary64 semantics (`fl` rounds every arithmetic result with
round-to-nearest, ties to even), which is what the Python program actually
computes — the two disagree by one at some in-window inputs.
-/

namespace VolcanoExplorer

/-- Greedy match of `\d{3,4}` at the head of the list: 3 or 4 decimal digits,
preferring 4, exactly as the regex engine behaves (no boundary requirement
after the digits). -/
def matchDigits : List Char → Option (List Char)
  | d1 :: d2 :: d3 :: d4 :: _ =>
    if d1.isDigit && d2.isDigit && d3.isDigit then
      if d4.isDigit then some [d1, d2, d3, d4] else some [d1, d2, d3]
    else none
  | [d1, d2, d3] =>
    if d1.isDigit && d2.isDigit && d3.isDigit then some [d1, d2, d3] else none
  | _ => none

/-- Attempt of the pattern `-?\d{3,4}` anchored at the head of the list.
Returns the sign flag (whether a literal `-` was consumed) and the digit
characters of the match.  When the head is `-` but fewer than 3 digits
follow, backtracking to the no-minus alternative also fails because `-`
is not a digit. -/
def matchAt (l : List Char) : Option (Bool × List Char) :=
  match l with
  | [] => none
  | c :: rest =>
    if c = '-' then (matchDigits rest).map (fun ds => (true, ds))
    else (matchDigits (c :: rest)).map (fun ds => (false, ds))

/-- `re.search`: leftmost successful attempt of `-?\d{3,4}`. -/
def searchYear : List Char → Option (Bool × List Char)
  | [] => none
  | c :: rest =>
    match matchAt (c :: rest) with
    | some m => some m
    | none => searchYear rest

/-- Decimal value of a list of digit characters. -/
def digitsToNat (ds : List Char) : Nat :=
  ds.foldl (fun n c => 10 * n + (c.toNat - '0'.toNat)) 0

/-- Signed value of a match: group 1 is the optional minus plus the digits,
and `int` honors the minus exactly when it is present in the group. -/
def tokVal (m : Bool × List Char) : Int :=
  if m.1 then -(digitsToNat m.2 : Int) else (digitsToNat m.2 : Int)

/-- `extract_year` of the source on an input that is already a string:
`re.search(r"(-?\d{3,4})", s)`, then `int(group(1))` on success, else `None`. -/
def extract_year (s : String) : Option Int :=
  match searchYear s.data with
  | none => none
  | some m => some (tokVal m)

/-- Model of Python `int(str)`: `none` models the `ValueError` raise.  (It is
only ever applied to regex groups of shape `-?\d{3,4}` here, on which this
simplified grammar — optional minus then nonempty digits — is exact.) -/
def pyInt? (l : List Char) : Option Int :=
  if l.head? = some '-' then
    if !l.tail.isEmpty && l.tail.all Char.isDigit then some (-(digitsToNat l.tail : Int))
    else none
  else
    if !l.isEmpty && l.all Char.isDigit then some ((digitsToNat l : Int))
    else none

/-- `extract_year` with the error behavior made explicit: `Except.error ()`
models an uncaught Python exception escaping from `int(match.group(1))`. -/
def extractYearExc (s : String) : Except Unit (Option Int) :=
  match searchYear s.data with
  | none => .ok none
  | some (neg, ds) =>
    match pyInt? ((if neg then ['-'] else []) ++ ds) with
    | some n => .ok (some n)
    | none => .error ()

/-- `true` iff the text contains three consecutive decimal digits, i.e. some
digit run has length at least 3. -/
def hasThreeConsecDigits : List Char → Bool
  | a :: b :: c :: rest =>
    (a.isDigit && b.isDigit && c.isDigit) || hasThreeConsecDigits (b :: c :: rest)
  | _ => false

/-- Spec-side (from the spec's words, for the refinement claim): the token at
a given position is "exactly 3 or 4 decimal digits" read off the digit run
starting there, the 4-digit reading preferred. -/
def specToken (l : List Char) : Option (List Char) :=
  let run := l.takeWhile Char.isDigit
  if 4 ≤ run.length then some (run.take 4)
  else if run.length = 3 then some run
  else none

/-- Spec-side: value of the substring starting at a position, "an optional
leading minus sign followed by exactly 3 or 4 decimal digits", parsed as a
signed integer; the sign is honored only when a literal `-` immediately
precedes the digits. -/
def specTokenAt (l : List Char) : Option Int :=
  if l.head? = some '-' then (specToken l.tail).map (fun ds => -(digitsToNat ds : Int))
  else (specToken l).map (fun ds => (digitsToNat ds : Int))

/-- Spec-side extractor: the first (leftmost) position whose substring matches
wins. -/
def extractYearSpec (s : String) : Option Int :=
  (List.range s.data.length).findSome? (fun i => specTokenAt (s.data.drop i))

/-- Universe of Python values `extract_year` may receive from the dataframe
column; `str()` is applied by the source before the regex runs. -/
inductive PyVal where
  | pstr (s : String)
  | pint (n : Int)
  | pnone
  | pnan
deriving DecidableEq

/-- Python `str()` on the supported values (`str(None) = "None"`,
`str(float('nan')) = "nan"`, integers print in decimal with a leading `-`
when negative). -/
def pyStr : PyVal → String
  | .pstr s => s
  | .pint n => toString n
  | .pnone => "None"
  | .pnan => "nan"

/-- `extract_year` as called on an arbitrary dataframe cell: the source first
coerces with `str`. -/
def extract_year_py (v : PyVal) : Option Int :=
  extract_year (pyStr v)

/-- Python `int()` on a real number: truncation toward zero. -/
def pyTrunc (q : ℚ) : Int :=
  if 0 ≤ q then ⌊q⌋ else -⌊-q⌋

/-- An RGBA color as produced by `compute_color` (each channel a Python int). -/
structure RGBA where
  r : Int
  g : Int
  b : Int
  a : Int
deriving DecidableEq

/-- `base_color = [200, 200, 200, 100]`, the dormant/grey state. -/
def base_color : RGBA := ⟨200, 200, 200, 100⟩

/-- The fade fraction `f` of `compute_color` (exact rational arithmetic models
the source's division):
`f = (sim - (e - pre)) / pre` when `sim ≤ e`, else `f = 1 - (sim - e) / post`. -/
def fadeFraction (e sim pre post : Int) : ℚ :=
  if sim ≤ e then ((sim : ℚ) - ((e : ℚ) - (pre : ℚ))) / (pre : ℚ)
  else 1 - (((sim : ℚ) - (e : ℚ)) / (post : ℚ))

/-- `compute_color(row, sim_year, pre, post)` of the source: grey when the
eruption year is NaN (`none`) or `sim_year` lies outside
`[e - pre, e + post]`; otherwise red with `alpha = int(f * 180)`. -/
def compute_color (ey : Option Int) (sim pre post : Int) : RGBA :=
  match ey with
  | none => base_color
  | some e =>
    if sim < e - pre ∨ e + post < sim then base_color
    else ⟨255, 0, 0, pyTrunc (fadeFraction e sim pre post * 180)⟩

/-- `compute_color` with the division-by-zero possibility made explicit:
`Except.error ()` marks the evaluation of a division whose executed
denominator (`pre` in the `sim ≤ e` branch, `post` otherwise) is zero. -/
def computeColorExc (ey : Option Int) (sim pre post : Int) : Except Unit RGBA :=
  match ey with
  | none => .ok base_color
  | some e =>
    if sim < e - pre ∨ e + post < sim then .ok base_color
    else if sim ≤ e then
      if pre = 0 then .error ()
      else .ok ⟨255, 0, 0, pyTrunc (fadeFraction e sim pre post * 180)⟩
    else
      if post = 0 then .error ()
      else .ok ⟨255, 0, 0, pyTrunc (fadeFraction e sim pre post * 180)⟩

/-- Round-to-nearest-integer, ties to even, of a (scaled) significand. -/
def roundHalfEven (x : ℚ) : ℤ :=
  if x - ⌊x⌋ < 1/2 then ⌊x⌋
  else if 1/2 < x - ⌊x⌋ then ⌊x⌋ + 1
  else if 2 ∣ ⌊x⌋ then ⌊x⌋ else ⌊x⌋ + 1

/-- IEEE-754 binary64 rounding of a nonnegative rational: 53 significant
bits, round-to-nearest with ties to even.  The exponent is unbounded here,
which agrees with binary64 on the whole normal range; no subnormal or
overflow magnitudes arise in this program. -/
def flPos (q : ℚ) : ℚ :=
  if q = 0 then 0
  else (roundHalfEven (q / 2 ^ (Int.log 2 q - 52)) : ℚ) * 2 ^ (Int.log 2 q - 52)

/-- IEEE-754 binary64 rounding (round-to-nearest, ties to even). -/
def fl (q : ℚ) : ℚ :=
  if 0 ≤ q then flPos q else -flPos (-q)

/-- The `active_mask` of `update_map`: the eruption year is present and
`e - pre_fade ≤ sim_year ≤ e + post_fade` (both comparisons inclusive). -/
def isActive (ey : Option Int) (sim pre post : Int) : Bool :=
  match ey with
  | none => false
  | some e => decide (e - pre ≤ sim) && decide (sim ≤ e + post)

/-- The spec's `compute_state`: the activity flag is `update_map`'s mask, and
the alpha is the fourth color channel that `update_map` attaches to the row
(`compute_color` for active rows, the literal grey `[200,200,200,100]` for
inactive rows). -/
def compute_state (ey : Option Int) (sim pre post : Int) : Bool × Int :=
  (isActive ey sim pre post,
   (if isActive ey sim pre post then compute_color ey sim pre post else base_color).a)

/-- `compute_color` under the program's binary64 float semantics: each
arithmetic operation of the source rounds its result with `fl`.  The window
comparisons stay exact (year magnitudes are far below 2^53), as do the
int-to-float conversions of the arguments. -/
def computeColorFp (ey : Option Int) (sim pre post : Int) : RGBA :=
  match ey with
  | none => base_color
  | some e =>
    if sim < e - pre ∨ e + post < sim then base_color
    else
      let f : ℚ :=
        if sim ≤ e then fl (fl ((sim : ℚ) - fl ((e : ℚ) - (pre : ℚ))) / (pre : ℚ))
        else fl (1 - fl (fl ((sim : ℚ) - (e : ℚ)) / (post : ℚ)))
      ⟨255, 0, 0, pyTrunc (fl (f * 180))⟩

/-- `compute_state` under binary64 float semantics (mask as in `update_map`,
alpha from `computeColorFp`). -/
def computeStateFp (ey : Option Int) (sim pre post : Int) : Bool × Int :=
  (isActive ey sim pre post,
   (if isActive ey sim pre post then computeColorFp ey sim pre post else base_color).a)

/-- The alpha the program actually computes at its fade parameters 15/15, as
a function of the window offset `d = sim_year - eruption_year`: it equals
`⌊f * 180⌋` everywhere except at the receding offsets 12, 13, 14, where the
binary64 double rounding loses one (35, 23, 11 instead of 36, 24, 12). -/
def alphaFp15 (d : Int) : Int :=
  if d ≤ 0 then 12 * d + 180
  else if d ≤ 11 then 180 - 12 * d
  else if d ≤ 14 then 179 - 12 * d
  else 0

/-- One dataframe row after load: the cleaned CSV columns plus the
`Eruption_Year` column attached once by `extract_year`. -/
structure VolcanoRecord where
  volcano_name : String
  country : String
  latitude : ℚ
  longitude : ℚ
  volcano_type : String
  last_eruption : String
  eruption_year : Option Int
deriving DecidableEq

/-- A row handed to a scatterplot layer: the original record plus the computed
color column. -/
structure RenderRow where
  record : VolcanoRecord
  color : RGBA
deriving DecidableEq

/-- The observable effect of one `update_map(sim_year)` frame: the dataframe
as it stands after the call (the source only reads `df` and works on copies),
plus the two layers' data. -/
structure Frame where
  df_after : List VolcanoRecord
  active : List RenderRow
  inactive : List RenderRow
deriving DecidableEq

/-- `update_map(sim_year)`: split `df` by `active_mask`, color the active
copy via `compute_color` row by row, give every inactive row the literal grey
color, and leave `df` itself untouched. -/
def update_map (df : List VolcanoRecord) (sim pre post : Int) : Frame :=
  let mask := fun r : VolcanoRecord => isActive r.eruption_year sim pre post
  { df_after := df
    active := (df.filter mask).map
      (fun r => ⟨r, compute_color r.eruption_year sim pre post⟩)
    inactive := (df.filter (fun r => !(mask r))).map
      (fun r => ⟨r, ⟨200, 200, 200, 100⟩⟩) }

/-- A sample annotated record, used to instantiate the frame-effect theorem. -/
def sampleRecord : VolcanoRecord :=
  ⟨"Vesuvius", "Italy", 40, 14, "Stratovolcano", "1991 CE", some 1991⟩

/-- The render row `update_map` builds for `sampleRecord` at year 1991. -/
def sampleRow : RenderRow :=
  ⟨sampleRecord, compute_color sampleRecord.eruption_year 1991 15 15⟩

end VolcanoExplorer

namespace VolcanoExplorer

theorem matchDigits_eq_none : ∀ l : List Char, hasThreeConsecDigits l = false →
    matchDigits l = none := by
  intro l h
  match l with
  | [] => rfl
  | [a] => rfl
  | [a, b] => rfl
  | [a, b, c] =>
    simp only [hasThreeConsecDigits, Bool.or_eq_false_iff] at h
    simp [matchDigits, h.1]
  | a :: b :: c :: d :: t =>
    simp only [hasThreeConsecDigits, Bool.or_eq_false_iff] at h
    simp [matchDigits, h.1]

theorem hasThreeConsecDigits_tail (c : Char) (l : List Char)
    (h : hasThreeConsecDigits (c :: l) = false) : hasThreeConsecDigits l = false := by
  match l with
  | [] => rfl
  | [a] => rfl
  | a :: b :: t =>
    simp only [hasThreeConsecDigits, Bool.or_eq_false_iff] at h
    exact h.2

theorem matchAt_eq_none (l : List Char) (h : hasThreeConsecDigits l = false) :
    matchAt l = none := by
  match l with
  | [] => rfl
  | c :: rest =>
    by_cases hc : c = '-'
    · simp [matchAt, hc, matchDigits_eq_none rest (hasThreeConsecDigits_tail c rest h)]
    · simp [matchAt, hc, matchDigits_eq_none (c :: rest) h]

theorem searchYear_eq_none : ∀ l : List Char, hasThreeConsecDigits l = false →
    searchYear l = none
  | [], _ => rfl
  | c :: rest, h => by
    have h1 := matchAt_eq_none (c :: rest) h
    have h2 := searchYear_eq_none rest (hasThreeConsecDigits_tail c rest h)
    simp [searchYear, h1, h2]

theorem matchDigits_shape : ∀ l ds : List Char, matchDigits l = some ds →
    ds ≠ [] ∧ ds.all Char.isDigit = true := by
  intro l ds h
  match l with
  | [] => exact absurd h (by simp [matchDigits])
  | [a] => exact absurd h (by simp [matchDigits])
  | [a, b] => exact absurd h (by simp [matchDigits])
  | [a, b, c] =>
    by_cases h3 : (a.isDigit && b.isDigit && c.isDigit) = true
    · rw [matchDigits, if_pos h3] at h
      obtain ⟨ha, hb, hc⟩ : a.isDigit = true ∧ b.isDigit = true ∧ c.isDigit = true := by
        simpa [Bool.and_eq_true, and_assoc] using h3
      injection h with h
      subst h
      simp [ha, hb, hc]
    · rw [matchDigits, if_neg h3] at h
      exact absurd h (by simp)
  | a :: b :: c :: d :: t =>
    by_cases h3 : (a.isDigit && b.isDigit && c.isDigit) = true
    · rw [matchDigits, if_pos h3] at h
      obtain ⟨ha, hb, hc⟩ : a.isDigit = true ∧ b.isDigit = true ∧ c.isDigit = true := by
        simpa [Bool.and_eq_true, and_assoc] using h3
      by_cases h4 : d.isDigit = true
      · rw [if_pos h4] at h
        injection h with h
        subst h
        simp [ha, hb, hc, h4]
      · rw [if_neg h4] at h
        injection h with h
        subst h
        simp [ha, hb, hc]
    · rw [matchDigits, if_neg h3] at h
      exact absurd h (by simp)

theorem matchAt_shape (l : List Char) (m : Bool × List Char) (h : matchAt l = some m) :
    m.2 ≠ [] ∧ m.2.all Char.isDigit = true := by
  match l with
  | [] => exact absurd h (by simp [matchAt])
  | c :: rest =>
    by_cases hc : c = '-'
    · rw [matchAt, if_pos hc] at h
      rw [Option.map_eq_some'] at h
      obtain ⟨ds, hds, hm⟩ := h
      subst hm
      exact matchDigits_shape rest ds hds
    · rw [matchAt, if_neg hc] at h
      rw [Option.map_eq_some'] at h
      obtain ⟨ds, hds, hm⟩ := h
      subst hm
      exact matchDigits_shape (c :: rest) ds hds

theorem searchYear_shape : ∀ (l : List Char) (m : Bool × List Char),
    searchYear l = some m → m.2 ≠ [] ∧ m.2.all Char.isDigit = true := by
  intro l m h
  match l with
  | [] => exact absurd h (by simp [searchYear])
  | c :: rest =>
    rw [searchYear] at h
    cases hm : matchAt (c :: rest) with
    | some m0 =>
      rw [hm] at h
      injection h with h
      subst h
      exact matchAt_shape (c :: rest) _ hm
    | none =>
      rw [hm] at h
      exact searchYear_shape rest m h

/-- The `int()` call of `extract_year` never raises: on every regex group the
search can produce, `pyInt?` succeeds with the group's signed value. -/
theorem extractYearExc_ok (s : String) : extractYearExc s = .ok (extract_year s) := by
  rw [extractYearExc, extract_year]
  cases hs : searchYear s.data with
  | none => rfl
  | some m =>
    obtain ⟨neg, ds⟩ := m
    obtain ⟨hne, hall⟩ := searchYear_shape s.data (neg, ds) hs
    match ds, hne with
    | d :: ds', _ =>
      obtain ⟨hd, hds'⟩ : d.isDigit = true ∧ ds'.all Char.isDigit = true := by
        simpa using hall
      cases neg with
      | true =>
        have : pyInt? ('-' :: d :: ds') = some (-(digitsToNat (d :: ds') : Int)) := by
          simp [pyInt?, hd, hds']
        simp [this, tokVal]
      | false =>
        have hdne : d ≠ '-' := by
          intro hEq
          rw [hEq] at hd
          exact absurd hd (by decide)
        have : pyInt? (d :: ds') = some ((digitsToNat (d :: ds') : Int)) := by
          simp [pyInt?, hdne, hd, hds']
        simp [this, tokVal]

theorem matchDigits_eq_specToken : ∀ l : List Char, matchDigits l = specToken l := by
  intro l
  match l with
  | [] => rfl
  | [a] =>
    by_cases ha : a.isDigit <;>
      simp [matchDigits, specToken, List.takeWhile, ha]
  | [a, b] =>
    by_cases ha : a.isDigit <;> by_cases hb : b.isDigit <;>
      simp [matchDigits, specToken, List.takeWhile, ha, hb]
  | [a, b, c] =>
    by_cases ha : a.isDigit <;> by_cases hb : b.isDigit <;> by_cases hc : c.isDigit <;>
      simp [matchDigits, specToken, List.takeWhile, ha, hb, hc]
  | a :: b :: c :: d :: t =>
    by_cases ha : a.isDigit <;> by_cases hb : b.isDigit <;> by_cases hc : c.isDigit <;>
      by_cases hd : d.isDigit <;>
      simp [matchDigits, specToken, List.takeWhile, ha, hb, hc, hd]

theorem matchAt_eq_specTokenAt (l : List Char) :
    (matchAt l).map tokVal = specTokenAt l := by
  match l with
  | [] => rfl
  | c :: rest =>
    by_cases hc : c = '-'
    · subst hc
      simp [matchAt, specTokenAt, matchDigits_eq_specToken rest, Option.map_map,
        Function.comp]
      cases specToken rest <;> simp [tokVal]
    · simp [matchAt, specTokenAt, hc, matchDigits_eq_specToken (c :: rest), Option.map_map,
        Function.comp]
      cases specToken (c :: rest) <;> simp [tokVal]

theorem searchYear_eq_spec : ∀ l : List Char,
    (searchYear l).map tokVal =
      (List.range l.length).findSome? (fun i => specTokenAt (l.drop i))
  | [] => rfl
  | c :: rest => by
    rw [List.length_cons, List.range_succ_eq_map, List.findSome?_cons]
    have h0 := matchAt_eq_specTokenAt (c :: rest)
    cases hm : matchAt (c :: rest) with
    | some m =>
      rw [hm] at h0
      have hL : searchYear (c :: rest) = some m := by rw [searchYear, hm]
      rw [hL, List.drop_zero, ← h0]
      simp
    | none =>
      rw [hm] at h0
      have hL : searchYear (c :: rest) = searchYear rest := by rw [searchYear, hm]
      rw [hL, List.drop_zero, ← h0]
      simp only [Option.map_none']
      rw [List.findSome?_map]
      have hcomp : (fun i => specTokenAt ((c :: rest).drop i)) ∘ Nat.succ
          = fun i => specTokenAt (rest.drop i) := by
        funext i
        simp [List.drop_succ_cons]
      rw [hcomp]
      exact searchYear_eq_spec rest

theorem log2_eq (q : ℚ) (E : ℤ) (h0 : 0 < q) (h1 : (2:ℚ) ^ E ≤ q)
    (h2 : q < (2:ℚ) ^ (E + 1)) : Int.log 2 q = E := by
  have hle : E ≤ Int.log 2 q := (Int.zpow_le_iff_le_log (by norm_num) h0).mp h1
  have hlt : Int.log 2 q < E + 1 := (Int.lt_zpow_iff_log_lt (by norm_num) h0).mp h2
  omega

theorem floor_eq_int (x : ℚ) (n : ℤ) (h1 : (n:ℚ) ≤ x) (h2 : x < (n:ℚ) + 1) : ⌊x⌋ = n :=
  Int.floor_eq_iff.mpr ⟨h1, by linarith⟩

theorem roundHalfEven_eq_lt (x : ℚ) (n : ℤ) (h1 : (n:ℚ) ≤ x) (h2 : x < (n:ℚ) + 1/2) :
    roundHalfEven x = n := by
  have hf : ⌊x⌋ = n := floor_eq_int x n h1 (by linarith)
  rw [roundHalfEven, hf, if_pos (by linarith : x - ((n:ℤ):ℚ) < 1/2)]

theorem roundHalfEven_eq_gt (x : ℚ) (n : ℤ) (h1 : (n:ℚ) + 1/2 < x) (h2 : x < (n:ℚ) + 1) :
    roundHalfEven x = n + 1 := by
  have hf : ⌊x⌋ = n := floor_eq_int x n (by linarith) h2
  rw [roundHalfEven, hf, if_neg (by linarith : ¬ (x - ((n:ℤ):ℚ) < 1/2)),
    if_pos (by linarith : (1:ℚ)/2 < x - ((n:ℤ):ℚ))]

theorem roundHalfEven_eq_tie_even (x : ℚ) (n : ℤ) (h1 : x = (n:ℚ) + 1/2) (h2 : 2 ∣ n) :
    roundHalfEven x = n := by
  have hf : ⌊x⌋ = n := floor_eq_int x n (by rw [h1]; linarith) (by rw [h1]; linarith)
  have hsub : x - ((n:ℤ):ℚ) = 1/2 := by rw [h1]; ring
  rw [roundHalfEven, hf, hsub, if_neg (lt_irrefl ((1:ℚ)/2)), if_neg (lt_irrefl ((1:ℚ)/2)),
    if_pos h2]

theorem roundHalfEven_eq_tie_odd (x : ℚ) (n : ℤ) (h1 : x = (n:ℚ) + 1/2) (h2 : ¬ 2 ∣ n) :
    roundHalfEven x = n + 1 := by
  have hf : ⌊x⌋ = n := floor_eq_int x n (by rw [h1]; linarith) (by rw [h1]; linarith)
  have hsub : x - ((n:ℤ):ℚ) = 1/2 := by rw [h1]; ring
  rw [roundHalfEven, hf, hsub, if_neg (lt_irrefl ((1:ℚ)/2)), if_neg (lt_irrefl ((1:ℚ)/2)),
    if_neg h2]

theorem roundHalfEven_intCast (n : ℤ) : roundHalfEven (n:ℚ) = n := by
  have hf : ⌊((n:ℤ):ℚ)⌋ = n := Int.floor_intCast n
  rw [roundHalfEven, hf, sub_self, if_pos (by norm_num : (0:ℚ) < 1/2)]

theorem flPos_eval (q : ℚ) (h0 : 0 < q) :
    flPos q = (roundHalfEven (q / 2 ^ (Int.log 2 q - 52)) : ℚ) * 2 ^ (Int.log 2 q - 52) := by
  rw [flPos, if_neg h0.ne']

theorem fl_of_nonneg (q : ℚ) (h : 0 ≤ q) : fl q = flPos q := by
  rw [fl, if_pos h]

theorem fl_zero : fl 0 = 0 := by
  rw [fl, if_pos le_rfl, flPos, if_pos rfl]

theorem flPos_intCast_pos (n : ℤ) (h0 : 0 < n) (h : n < 9007199254740992) :
    flPos (n:ℚ) = (n:ℚ) := by
  have h0Q : (0:ℚ) < (n:ℚ) := by exact_mod_cast h0
  have hub : (n:ℚ) < (2:ℚ) ^ (53:ℤ) := by
    have hn : (n:ℚ) < 9007199254740992 := by exact_mod_cast h
    have h2 : ((2:ℚ)) ^ (53:ℤ) = 9007199254740992 := by norm_num
    rw [h2]
    exact hn
  have hlt : Int.log 2 (n:ℚ) < 53 := (Int.lt_zpow_iff_log_lt (by norm_num) h0Q).mp hub
  set L := Int.log 2 ((n:ℚ)) with hL
  have hx : (n:ℚ) / 2 ^ (L - 52) = ((n * 2 ^ (52 - L).toNat : ℤ) : ℚ) := by
    have hzp : ((2:ℚ)) ^ (L - 52) = ((2:ℚ) ^ ((52 - L).toNat))⁻¹ := by
      rw [← zpow_natCast (2:ℚ) (52 - L).toNat, Int.toNat_of_nonneg (by omega), ← zpow_neg]
      congr 1
      omega
    rw [hzp, div_eq_mul_inv, inv_inv]
    push_cast
    ring
  rw [flPos_eval _ h0Q, ← hL, hx, roundHalfEven_intCast]
  push_cast
  rw [← zpow_natCast (2:ℚ) (52 - L).toNat, Int.toNat_of_nonneg (by omega), mul_assoc,
    ← zpow_add₀ (by norm_num : (2:ℚ) ≠ 0)]
  have hz : ((52:ℤ) - L) + (L - 52) = 0 := by ring
  rw [hz, zpow_zero, mul_one]

theorem fl_intCast (n : ℤ) (h : n.natAbs < 9007199254740992) : fl (n:ℚ) = (n:ℚ) := by
  rcases lt_trichotomy n 0 with hn | hn | hn
  · have hneg : ¬ (0:ℚ) ≤ (n:ℚ) := by
      have hni : ¬ (0 ≤ n) := by omega
      exact fun hc => hni (by exact_mod_cast hc)
    rw [fl, if_neg hneg]
    have hrw : -((n:ℤ):ℚ) = ((-n : ℤ):ℚ) := by push_cast; ring
    rw [hrw, flPos_intCast_pos (-n) (by omega) (by omega)]
    push_cast
    ring
  · subst hn
    simp only [Int.cast_zero]
    exact fl_zero
  · have hnn : (0:ℚ) ≤ (n:ℚ) := by
      have := hn.le
      exact_mod_cast this
    rw [fl, if_pos hnn]
    exact flPos_intCast_pos n hn (by omega)

/-- Inside the inclusive window the float-semantics state is active and its
alpha is the truncation of the rounded product `f * 180`. -/
theorem computeStateFp_active (e sim pre post : Int)
    (hlo : e - pre ≤ sim) (hhi : sim ≤ e + post) :
    computeStateFp (some e) sim pre post =
      (true, pyTrunc (fl ((if sim ≤ e
          then fl (fl ((sim : ℚ) - fl ((e : ℚ) - (pre : ℚ))) / (pre : ℚ))
          else fl (1 - fl (fl ((sim : ℚ) - (e : ℚ)) / (post : ℚ)))) * 180))) := by
  have hact : isActive (some e) sim pre post = true := by
    simp only [isActive, Bool.and_eq_true, decide_eq_true_eq]
    exact ⟨hlo, hhi⟩
  have hg : ¬ (sim < e - pre ∨ e + post < sim) := by omega
  simp [computeStateFp, hact, computeColorFp, hg]

theorem floorFade15_pre (e sim : Int) (h : sim ≤ e) :
    ⌊fadeFraction e sim 15 15 * 180⌋ = 12 * (sim - e) + 180 := by
  rw [fadeFraction, if_pos h]
  have hval : ((sim:ℚ) - ((e:ℚ) - ((15:ℤ):ℚ))) / ((15:ℤ):ℚ) * 180
      = ((12 * (sim - e) + 180 : ℤ) : ℚ) := by
    push_cast
    ring
  rw [hval, Int.floor_intCast]

theorem floorFade15_post (e sim : Int) (h : ¬ sim ≤ e) :
    ⌊fadeFraction e sim 15 15 * 180⌋ = 180 - 12 * (sim - e) := by
  rw [fadeFraction, if_neg h]
  have hval : (1 - ((sim:ℚ) - (e:ℚ)) / ((15:ℤ):ℚ)) * 180
      = ((180 - 12 * (sim - e) : ℤ) : ℚ) := by
    push_cast
    ring
  rw [hval, Int.floor_intCast]

theorem alphaFp15_range (d : Int) (h1 : -15 ≤ d) (h2 : d ≤ 15) :
    0 ≤ alphaFp15 d ∧ alphaFp15 d ≤ 180 := by
  rw [alphaFp15]
  split_ifs <;> omega

theorem alphaFp15_dev (e sim : Int) (h1 : e - 15 ≤ sim) (h2 : sim ≤ e + 15) :
    alphaFp15 (sim - e) = ⌊fadeFraction e sim 15 15 * 180⌋ ∨
    alphaFp15 (sim - e) = ⌊fadeFraction e sim 15 15 * 180⌋ - 1 := by
  by_cases h : sim ≤ e
  · left
    rw [floorFade15_pre e sim h, alphaFp15, if_pos (by omega : sim - e ≤ 0)]
  · rw [floorFade15_post e sim h, alphaFp15, if_neg (by omega : ¬ sim - e ≤ 0)]
    by_cases h11 : sim - e ≤ 11
    · left
      rw [if_pos h11]
    · by_cases h14 : sim - e ≤ 14
      · right
        rw [if_neg h11, if_pos h14]
        ring
      · left
        rw [if_neg h11, if_neg h14]
        have h15 : sim - e = 15 := by omega
        rw [h15]
        norm_num

theorem flDiv15_1 : fl (1/15 : ℚ) = 4803839602528529/72057594037927936 := by
  have h0 : (0:ℚ) < (1/15 : ℚ) := by norm_num
  have hlog : Int.log 2 ((1/15 : ℚ)) = (-4 : ℤ) :=
    log2_eq ((1/15 : ℚ)) (-4 : ℤ) h0 (by norm_num) (by norm_num)
  have hrh := roundHalfEven_eq_lt ((1/15 : ℚ) / 2 ^ ((-4 : ℤ) - 52)) 4803839602528529 (by norm_num) (by norm_num)
  rw [fl_of_nonneg _ h0.le, flPos_eval _ h0, hlog, hrh]
  norm_num

theorem flDiv15_2 : fl (2/15 : ℚ) = 4803839602528529/36028797018963968 := by
  have h0 : (0:ℚ) < (2/15 : ℚ) := by norm_num
  have hlog : Int.log 2 ((2/15 : ℚ)) = (-3 : ℤ) :=
    log2_eq ((2/15 : ℚ)) (-3 : ℤ) h0 (by norm_num) (by norm_num)
  have hrh := roundHalfEven_eq_lt ((2/15 : ℚ) / 2 ^ ((-3 : ℤ) - 52)) 4803839602528529 (by norm_num) (by norm_num)
  rw [fl_of_nonneg _ h0.le, flPos_eval _ h0, hlog, hrh]
  norm_num

theorem flDiv15_3 : fl (1/5 : ℚ) = 3602879701896397/18014398509481984 := by
  have h0 : (0:ℚ) < (1/5 : ℚ) := by norm_num
  have hlog : Int.log 2 ((1/5 : ℚ)) = (-3 : ℤ) :=
    log2_eq ((1/5 : ℚ)) (-3 : ℤ) h0 (by norm_num) (by norm_num)
  have hrh := roundHalfEven_eq_gt ((1/5 : ℚ) / 2 ^ ((-3 : ℤ) - 52)) 7205759403792793 (by norm_num) (by norm_num)
  rw [fl_of_nonneg _ h0.le, flPos_eval _ h0, hlog, hrh]
  norm_num

theorem flDiv15_4 : fl (4/15 : ℚ) = 4803839602528529/18014398509481984 := by
  have h0 : (0:ℚ) < (4/15 : ℚ) := by norm_num
  have hlog : Int.log 2 ((4/15 : ℚ)) = (-2 : ℤ) :=
    log2_eq ((4/15 : ℚ)) (-2 : ℤ) h0 (by norm_num) (by norm_num)
  have hrh := roundHalfEven_eq_lt ((4/15 : ℚ) / 2 ^ ((-2 : ℤ) - 52)) 4803839602528529 (by norm_num) (by norm_num)
  rw [fl_of_nonneg _ h0.le, flPos_eval _ h0, hlog, hrh]
  norm_num

theorem flDiv15_5 : fl (1/3 : ℚ) = 6004799503160661/18014398509481984 := by
  have h0 : (0:ℚ) < (1/3 : ℚ) := by norm_num
  have hlog : Int.log 2 ((1/3 : ℚ)) = (-2 : ℤ) :=
    log2_eq ((1/3 : ℚ)) (-2 : ℤ) h0 (by norm_num) (by norm_num)
  have hrh := roundHalfEven_eq_lt ((1/3 : ℚ) / 2 ^ ((-2 : ℤ) - 52)) 6004799503160661 (by norm_num) (by norm_num)
  rw [fl_of_nonneg _ h0.le, flPos_eval _ h0, hlog, hrh]
  norm_num

theorem flDiv15_6 : fl (2/5 : ℚ) = 3602879701896397/9007199254740992 := by
  have h0 : (0:ℚ) < (2/5 : ℚ) := by norm_num
  have hlog : Int.log 2 ((2/5 : ℚ)) = (-2 : ℤ) :=
    log2_eq ((2/5 : ℚ)) (-2 : ℤ) h0 (by norm_num) (by norm_num)
  have hrh := roundHalfEven_eq_gt ((2/5 : ℚ) / 2 ^ ((-2 : ℤ) - 52)) 7205759403792793 (by norm_num) (by norm_num)
  rw [fl_of_nonneg _ h0.le, flPos_eval _ h0, hlog, hrh]
  norm_num

theorem flDiv15_7 : fl (7/15 : ℚ) = 4203359652212463/9007199254740992 := by
  have h0 : (0:ℚ) < (7/15 : ℚ) := by norm_num
  have hlog : Int.log 2 ((7/15 : ℚ)) = (-2 : ℤ) :=
    log2_eq ((7/15 : ℚ)) (-2 : ℤ) h0 (by norm_num) (by norm_num)
  have hrh := roundHalfEven_eq_gt ((7/15 : ℚ) / 2 ^ ((-2 : ℤ) - 52)) 8406719304424925 (by norm_num) (by norm_num)
  rw [fl_of_nonneg _ h0.le, flPos_eval _ h0, hlog, hrh]
  norm_num

theorem flDiv15_8 : fl (8/15 : ℚ) = 4803839602528529/9007199254740992 := by
  have h0 : (0:ℚ) < (8/15 : ℚ) := by norm_num
  have hlog : Int.log 2 ((8/15 : ℚ)) = (-1 : ℤ) :=
    log2_eq ((8/15 : ℚ)) (-1 : ℤ) h0 (by norm_num) (by norm_num)
  have hrh := roundHalfEven_eq_lt ((8/15 : ℚ) / 2 ^ ((-1 : ℤ) - 52)) 4803839602528529 (by norm_num) (by norm_num)
  rw [fl_of_nonneg _ h0.le, flPos_eval _ h0, hlog, hrh]
  norm_num

theorem flDiv15_9 : fl (3/5 : ℚ) = 5404319552844595/9007199254740992 := by
  have h0 : (0:ℚ) < (3/5 : ℚ) := by norm_num
  have hlog : Int.log 2 ((3/5 : ℚ)) = (-1 : ℤ) :=
    log2_eq ((3/5 : ℚ)) (-1 : ℤ) h0 (by norm_num) (by norm_num)
  have hrh := roundHalfEven_eq_lt ((3/5 : ℚ) / 2 ^ ((-1 : ℤ) - 52)) 5404319552844595 (by norm_num) (by norm_num)
  rw [fl_of_nonneg _ h0.le, flPos_eval _ h0, hlog, hrh]
  norm_num

theorem flDiv15_10 : fl (2/3 : ℚ) = 6004799503160661/9007199254740992 := by
  have h0 : (0:ℚ) < (2/3 : ℚ) := by norm_num
  have hlog : Int.log 2 ((2/3 : ℚ)) = (-1 : ℤ) :=
    log2_eq ((2/3 : ℚ)) (-1 : ℤ) h0 (by norm_num) (by norm_num)
  have hrh := roundHalfEven_eq_lt ((2/3 : ℚ) / 2 ^ ((-1 : ℤ) - 52)) 6004799503160661 (by norm_num) (by norm_num)
  rw [fl_of_nonneg _ h0.le, flPos_eval _ h0, hlog, hrh]
  norm_num

theorem flDiv15_11 : fl (11/15 : ℚ) = 6605279453476727/9007199254740992 := by
  have h0 : (0:ℚ) < (11/15 : ℚ) := by norm_num
  have hlog : Int.log 2 ((11/15 : ℚ)) = (-1 : ℤ) :=
    log2_eq ((11/15 : ℚ)) (-1 : ℤ) h0 (by norm_num) (by norm_num)
  have hrh := roundHalfEven_eq_lt ((11/15 : ℚ) / 2 ^ ((-1 : ℤ) - 52)) 6605279453476727 (by norm_num) (by norm_num)
  rw [fl_of_nonneg _ h0.le, flPos_eval _ h0, hlog, hrh]
  norm_num

theorem flDiv15_12 : fl (4/5 : ℚ) = 3602879701896397/4503599627370496 := by
  have h0 : (0:ℚ) < (4/5 : ℚ) := by norm_num
  have hlog : Int.log 2 ((4/5 : ℚ)) = (-1 : ℤ) :=
    log2_eq ((4/5 : ℚ)) (-1 : ℤ) h0 (by norm_num) (by norm_num)
  have hrh := roundHalfEven_eq_gt ((4/5 : ℚ) / 2 ^ ((-1 : ℤ) - 52)) 7205759403792793 (by norm_num) (by norm_num)
  rw [fl_of_nonneg _ h0.le, flPos_eval _ h0, hlog, hrh]
  norm_num

theorem flDiv15_13 : fl (13/15 : ℚ) = 1951559838527215/2251799813685248 := by
  have h0 : (0:ℚ) < (13/15 : ℚ) := by norm_num
  have hlog : Int.log 2 ((13/15 : ℚ)) = (-1 : ℤ) :=
    log2_eq ((13/15 : ℚ)) (-1 : ℤ) h0 (by norm_num) (by norm_num)
  have hrh := roundHalfEven_eq_gt ((13/15 : ℚ) / 2 ^ ((-1 : ℤ) - 52)) 7806239354108859 (by norm_num) (by norm_num)
  rw [fl_of_nonneg _ h0.le, flPos_eval _ h0, hlog, hrh]
  norm_num

theorem flDiv15_14 : fl (14/15 : ℚ) = 4203359652212463/4503599627370496 := by
  have h0 : (0:ℚ) < (14/15 : ℚ) := by norm_num
  have hlog : Int.log 2 ((14/15 : ℚ)) = (-1 : ℤ) :=
    log2_eq ((14/15 : ℚ)) (-1 : ℤ) h0 (by norm_num) (by norm_num)
  have hrh := roundHalfEven_eq_gt ((14/15 : ℚ) / 2 ^ ((-1 : ℤ) - 52)) 8406719304424925 (by norm_num) (by norm_num)
  rw [fl_of_nonneg _ h0.le, flPos_eval _ h0, hlog, hrh]
  norm_num

theorem flMulA_1 : fl (216172782113783805/18014398509481984 : ℚ) = 12 := by
  have h0 : (0:ℚ) < (216172782113783805/18014398509481984 : ℚ) := by norm_num
  have hlog : Int.log 2 ((216172782113783805/18014398509481984 : ℚ)) = (3 : ℤ) :=
    log2_eq ((216172782113783805/18014398509481984 : ℚ)) (3 : ℤ) h0 (by norm_num) (by norm_num)
  have hrh := roundHalfEven_eq_gt ((216172782113783805/18014398509481984 : ℚ) / 2 ^ ((3 : ℤ) - 52)) 6755399441055743 (by norm_num) (by norm_num)
  rw [fl_of_nonneg _ h0.le, flPos_eval _ h0, hlog, hrh]
  norm_num

theorem flMulA_2 : fl (216172782113783805/9007199254740992 : ℚ) = 24 := by
  have h0 : (0:ℚ) < (216172782113783805/9007199254740992 : ℚ) := by norm_num
  have hlog : Int.log 2 ((216172782113783805/9007199254740992 : ℚ)) = (4 : ℤ) :=
    log2_eq ((216172782113783805/9007199254740992 : ℚ)) (4 : ℤ) h0 (by norm_num) (by norm_num)
  have hrh := roundHalfEven_eq_gt ((216172782113783805/9007199254740992 : ℚ) / 2 ^ ((4 : ℤ) - 52)) 6755399441055743 (by norm_num) (by norm_num)
  rw [fl_of_nonneg _ h0.le, flPos_eval _ h0, hlog, hrh]
  norm_num

theorem flMulA_3 : fl (162129586585337865/4503599627370496 : ℚ) = 36 := by
  have h0 : (0:ℚ) < (162129586585337865/4503599627370496 : ℚ) := by norm_num
  have hlog : Int.log 2 ((162129586585337865/4503599627370496 : ℚ)) = (5 : ℤ) :=
    log2_eq ((162129586585337865/4503599627370496 : ℚ)) (5 : ℤ) h0 (by norm_num) (by norm_num)
  have hrh := roundHalfEven_eq_lt ((162129586585337865/4503599627370496 : ℚ) / 2 ^ ((5 : ℤ) - 52)) 5066549580791808 (by norm_num) (by norm_num)
  rw [fl_of_nonneg _ h0.le, flPos_eval _ h0, hlog, hrh]
  norm_num

theorem flMulA_4 : fl (216172782113783805/4503599627370496 : ℚ) = 48 := by
  have h0 : (0:ℚ) < (216172782113783805/4503599627370496 : ℚ) := by norm_num
  have hlog : Int.log 2 ((216172782113783805/4503599627370496 : ℚ)) = (5 : ℤ) :=
    log2_eq ((216172782113783805/4503599627370496 : ℚ)) (5 : ℤ) h0 (by norm_num) (by norm_num)
  have hrh := roundHalfEven_eq_gt ((216172782113783805/4503599627370496 : ℚ) / 2 ^ ((5 : ℤ) - 52)) 6755399441055743 (by norm_num) (by norm_num)
  rw [fl_of_nonneg _ h0.le, flPos_eval _ h0, hlog, hrh]
  norm_num

theorem flMulA_5 : fl (270215977642229745/4503599627370496 : ℚ) = 60 := by
  have h0 : (0:ℚ) < (270215977642229745/4503599627370496 : ℚ) := by norm_num
  have hlog : Int.log 2 ((270215977642229745/4503599627370496 : ℚ)) = (5 : ℤ) :=
    log2_eq ((270215977642229745/4503599627370496 : ℚ)) (5 : ℤ) h0 (by norm_num) (by norm_num)
  have hrh := roundHalfEven_eq_gt ((270215977642229745/4503599627370496 : ℚ) / 2 ^ ((5 : ℤ) - 52)) 8444249301319679 (by norm_num) (by norm_num)
  rw [fl_of_nonneg _ h0.le, flPos_eval _ h0, hlog, hrh]
  norm_num

theorem flMulA_6 : fl (162129586585337865/2251799813685248 : ℚ) = 72 := by
  have h0 : (0:ℚ) < (162129586585337865/2251799813685248 : ℚ) := by norm_num
  have hlog : Int.log 2 ((162129586585337865/2251799813685248 : ℚ)) = (6 : ℤ) :=
    log2_eq ((162129586585337865/2251799813685248 : ℚ)) (6 : ℤ) h0 (by norm_num) (by norm_num)
  have hrh := roundHalfEven_eq_lt ((162129586585337865/2251799813685248 : ℚ) / 2 ^ ((6 : ℤ) - 52)) 5066549580791808 (by norm_num) (by norm_num)
  rw [fl_of_nonneg _ h0.le, flPos_eval _ h0, hlog, hrh]
  norm_num

theorem flMulA_7 : fl (189151184349560835/2251799813685248 : ℚ) = 84 := by
  have h0 : (0:ℚ) < (189151184349560835/2251799813685248 : ℚ) := by norm_num
  have hlog : Int.log 2 ((189151184349560835/2251799813685248 : ℚ)) = (6 : ℤ) :=
    log2_eq ((189151184349560835/2251799813685248 : ℚ)) (6 : ℤ) h0 (by norm_num) (by norm_num)
  have hrh := roundHalfEven_eq_lt ((189151184349560835/2251799813685248 : ℚ) / 2 ^ ((6 : ℤ) - 52)) 5910974510923776 (by norm_num) (by norm_num)
  rw [fl_of_nonneg _ h0.le, flPos_eval _ h0, hlog, hrh]
  norm_num

theorem flMulA_8 : fl (216172782113783805/2251799813685248 : ℚ) = 96 := by
  have h0 : (0:ℚ) < (216172782113783805/2251799813685248 : ℚ) := by norm_num
  have hlog : Int.log 2 ((216172782113783805/2251799813685248 : ℚ)) = (6 : ℤ) :=
    log2_eq ((216172782113783805/2251799813685248 : ℚ)) (6 : ℤ) h0 (by norm_num) (by norm_num)
  have hrh := roundHalfEven_eq_gt ((216172782113783805/2251799813685248 : ℚ) / 2 ^ ((6 : ℤ) - 52)) 6755399441055743 (by norm_num) (by norm_num)
  rw [fl_of_nonneg _ h0.le, flPos_eval _ h0, hlog, hrh]
  norm_num

theorem flMulA_9 : fl (243194379878006775/2251799813685248 : ℚ) = 108 := by
  have h0 : (0:ℚ) < (243194379878006775/2251799813685248 : ℚ) := by norm_num
  have hlog : Int.log 2 ((243194379878006775/2251799813685248 : ℚ)) = (6 : ℤ) :=
    log2_eq ((243194379878006775/2251799813685248 : ℚ)) (6 : ℤ) h0 (by norm_num) (by norm_num)
  have hrh := roundHalfEven_eq_gt ((243194379878006775/2251799813685248 : ℚ) / 2 ^ ((6 : ℤ) - 52)) 7599824371187711 (by norm_num) (by norm_num)
  rw [fl_of_nonneg _ h0.le, flPos_eval _ h0, hlog, hrh]
  norm_num

theorem flMulA_10 : fl (270215977642229745/2251799813685248 : ℚ) = 120 := by
  have h0 : (0:ℚ) < (270215977642229745/2251799813685248 : ℚ) := by norm_num
  have hlog : Int.log 2 ((270215977642229745/2251799813685248 : ℚ)) = (6 : ℤ) :=
    log2_eq ((270215977642229745/2251799813685248 : ℚ)) (6 : ℤ) h0 (by norm_num) (by norm_num)
  have hrh := roundHalfEven_eq_gt ((270215977642229745/2251799813685248 : ℚ) / 2 ^ ((6 : ℤ) - 52)) 8444249301319679 (by norm_num) (by norm_num)
  rw [fl_of_nonneg _ h0.le, flPos_eval _ h0, hlog, hrh]
  norm_num

theorem flMulA_11 : fl (297237575406452715/2251799813685248 : ℚ) = 132 := by
  have h0 : (0:ℚ) < (297237575406452715/2251799813685248 : ℚ) := by norm_num
  have hlog : Int.log 2 ((297237575406452715/2251799813685248 : ℚ)) = (7 : ℤ) :=
    log2_eq ((297237575406452715/2251799813685248 : ℚ)) (7 : ℤ) h0 (by norm_num) (by norm_num)
  have hrh := roundHalfEven_eq_gt ((297237575406452715/2251799813685248 : ℚ) / 2 ^ ((7 : ℤ) - 52)) 4644337115725823 (by norm_num) (by norm_num)
  rw [fl_of_nonneg _ h0.le, flPos_eval _ h0, hlog, hrh]
  norm_num

theorem flMulA_12 : fl (162129586585337865/1125899906842624 : ℚ) = 144 := by
  have h0 : (0:ℚ) < (162129586585337865/1125899906842624 : ℚ) := by norm_num
  have hlog : Int.log 2 ((162129586585337865/1125899906842624 : ℚ)) = (7 : ℤ) :=
    log2_eq ((162129586585337865/1125899906842624 : ℚ)) (7 : ℤ) h0 (by norm_num) (by norm_num)
  have hrh := roundHalfEven_eq_lt ((162129586585337865/1125899906842624 : ℚ) / 2 ^ ((7 : ℤ) - 52)) 5066549580791808 (by norm_num) (by norm_num)
  rw [fl_of_nonneg _ h0.le, flPos_eval _ h0, hlog, hrh]
  norm_num

theorem flMulA_13 : fl (87820192733724675/562949953421312 : ℚ) = 156 := by
  have h0 : (0:ℚ) < (87820192733724675/562949953421312 : ℚ) := by norm_num
  have hlog : Int.log 2 ((87820192733724675/562949953421312 : ℚ)) = (7 : ℤ) :=
    log2_eq ((87820192733724675/562949953421312 : ℚ)) (7 : ℤ) h0 (by norm_num) (by norm_num)
  have hrh := roundHalfEven_eq_lt ((87820192733724675/562949953421312 : ℚ) / 2 ^ ((7 : ℤ) - 52)) 5488762045857792 (by norm_num) (by norm_num)
  rw [fl_of_nonneg _ h0.le, flPos_eval _ h0, hlog, hrh]
  norm_num

theorem flMulA_14 : fl (189151184349560835/1125899906842624 : ℚ) = 168 := by
  have h0 : (0:ℚ) < (189151184349560835/1125899906842624 : ℚ) := by norm_num
  have hlog : Int.log 2 ((189151184349560835/1125899906842624 : ℚ)) = (7 : ℤ) :=
    log2_eq ((189151184349560835/1125899906842624 : ℚ)) (7 : ℤ) h0 (by norm_num) (by norm_num)
  have hrh := roundHalfEven_eq_lt ((189151184349560835/1125899906842624 : ℚ) / 2 ^ ((7 : ℤ) - 52)) 5910974510923776 (by norm_num) (by norm_num)
  rw [fl_of_nonneg _ h0.le, flPos_eval _ h0, hlog, hrh]
  norm_num

theorem flSubB_1 : fl (67253754435399407/72057594037927936 : ℚ) = 4203359652212463/4503599627370496 := by
  have h0 : (0:ℚ) < (67253754435399407/72057594037927936 : ℚ) := by norm_num
  have hlog : Int.log 2 ((67253754435399407/72057594037927936 : ℚ)) = (-1 : ℤ) :=
    log2_eq ((67253754435399407/72057594037927936 : ℚ)) (-1 : ℤ) h0 (by norm_num) (by norm_num)
  have hrh := roundHalfEven_eq_gt ((67253754435399407/72057594037927936 : ℚ) / 2 ^ ((-1 : ℤ) - 52)) 8406719304424925 (by norm_num) (by norm_num)
  rw [fl_of_nonneg _ h0.le, flPos_eval _ h0, hlog, hrh]
  norm_num

theorem flSubB_2 : fl (31224957416435439/36028797018963968 : ℚ) = 1951559838527215/2251799813685248 := by
  have h0 : (0:ℚ) < (31224957416435439/36028797018963968 : ℚ) := by norm_num
  have hlog : Int.log 2 ((31224957416435439/36028797018963968 : ℚ)) = (-1 : ℤ) :=
    log2_eq ((31224957416435439/36028797018963968 : ℚ)) (-1 : ℤ) h0 (by norm_num) (by norm_num)
  have hrh := roundHalfEven_eq_gt ((31224957416435439/36028797018963968 : ℚ) / 2 ^ ((-1 : ℤ) - 52)) 7806239354108859 (by norm_num) (by norm_num)
  rw [fl_of_nonneg _ h0.le, flPos_eval _ h0, hlog, hrh]
  norm_num

theorem flSubB_3 : fl (14411518807585587/18014398509481984 : ℚ) = 3602879701896397/4503599627370496 := by
  have h0 : (0:ℚ) < (14411518807585587/18014398509481984 : ℚ) := by norm_num
  have hlog : Int.log 2 ((14411518807585587/18014398509481984 : ℚ)) = (-1 : ℤ) :=
    log2_eq ((14411518807585587/18014398509481984 : ℚ)) (-1 : ℤ) h0 (by norm_num) (by norm_num)
  have hrh := roundHalfEven_eq_tie_odd ((14411518807585587/18014398509481984 : ℚ) / 2 ^ ((-1 : ℤ) - 52)) 7205759403792793 (by norm_num) (by norm_num)
  rw [fl_of_nonneg _ h0.le, flPos_eval _ h0, hlog, hrh]
  norm_num

theorem flSubB_4 : fl (13210558906953455/18014398509481984 : ℚ) = 825659931684591/1125899906842624 := by
  have h0 : (0:ℚ) < (13210558906953455/18014398509481984 : ℚ) := by norm_num
  have hlog : Int.log 2 ((13210558906953455/18014398509481984 : ℚ)) = (-1 : ℤ) :=
    log2_eq ((13210558906953455/18014398509481984 : ℚ)) (-1 : ℤ) h0 (by norm_num) (by norm_num)
  have hrh := roundHalfEven_eq_tie_odd ((13210558906953455/18014398509481984 : ℚ) / 2 ^ ((-1 : ℤ) - 52)) 6605279453476727 (by norm_num) (by norm_num)
  rw [fl_of_nonneg _ h0.le, flPos_eval _ h0, hlog, hrh]
  norm_num

theorem flSubB_5 : fl (12009599006321323/18014398509481984 : ℚ) = 3002399751580331/4503599627370496 := by
  have h0 : (0:ℚ) < (12009599006321323/18014398509481984 : ℚ) := by norm_num
  have hlog : Int.log 2 ((12009599006321323/18014398509481984 : ℚ)) = (-1 : ℤ) :=
    log2_eq ((12009599006321323/18014398509481984 : ℚ)) (-1 : ℤ) h0 (by norm_num) (by norm_num)
  have hrh := roundHalfEven_eq_tie_odd ((12009599006321323/18014398509481984 : ℚ) / 2 ^ ((-1 : ℤ) - 52)) 6004799503160661 (by norm_num) (by norm_num)
  rw [fl_of_nonneg _ h0.le, flPos_eval _ h0, hlog, hrh]
  norm_num

theorem flSubB_6 : fl (5404319552844595/9007199254740992 : ℚ) = 5404319552844595/9007199254740992 := by
  have h0 : (0:ℚ) < (5404319552844595/9007199254740992 : ℚ) := by norm_num
  have hlog : Int.log 2 ((5404319552844595/9007199254740992 : ℚ)) = (-1 : ℤ) :=
    log2_eq ((5404319552844595/9007199254740992 : ℚ)) (-1 : ℤ) h0 (by norm_num) (by norm_num)
  have hrh := roundHalfEven_eq_lt ((5404319552844595/9007199254740992 : ℚ) / 2 ^ ((-1 : ℤ) - 52)) 5404319552844595 (by norm_num) (by norm_num)
  rw [fl_of_nonneg _ h0.le, flPos_eval _ h0, hlog, hrh]
  norm_num

theorem flSubB_7 : fl (4803839602528529/9007199254740992 : ℚ) = 4803839602528529/9007199254740992 := by
  have h0 : (0:ℚ) < (4803839602528529/9007199254740992 : ℚ) := by norm_num
  have hlog : Int.log 2 ((4803839602528529/9007199254740992 : ℚ)) = (-1 : ℤ) :=
    log2_eq ((4803839602528529/9007199254740992 : ℚ)) (-1 : ℤ) h0 (by norm_num) (by norm_num)
  have hrh := roundHalfEven_eq_lt ((4803839602528529/9007199254740992 : ℚ) / 2 ^ ((-1 : ℤ) - 52)) 4803839602528529 (by norm_num) (by norm_num)
  rw [fl_of_nonneg _ h0.le, flPos_eval _ h0, hlog, hrh]
  norm_num

theorem flSubB_8 : fl (4203359652212463/9007199254740992 : ℚ) = 4203359652212463/9007199254740992 := by
  have h0 : (0:ℚ) < (4203359652212463/9007199254740992 : ℚ) := by norm_num
  have hlog : Int.log 2 ((4203359652212463/9007199254740992 : ℚ)) = (-2 : ℤ) :=
    log2_eq ((4203359652212463/9007199254740992 : ℚ)) (-2 : ℤ) h0 (by norm_num) (by norm_num)
  have hrh := roundHalfEven_eq_lt ((4203359652212463/9007199254740992 : ℚ) / 2 ^ ((-2 : ℤ) - 52)) 8406719304424926 (by norm_num) (by norm_num)
  rw [fl_of_nonneg _ h0.le, flPos_eval _ h0, hlog, hrh]
  norm_num

theorem flSubB_9 : fl (3602879701896397/9007199254740992 : ℚ) = 3602879701896397/9007199254740992 := by
  have h0 : (0:ℚ) < (3602879701896397/9007199254740992 : ℚ) := by norm_num
  have hlog : Int.log 2 ((3602879701896397/9007199254740992 : ℚ)) = (-2 : ℤ) :=
    log2_eq ((3602879701896397/9007199254740992 : ℚ)) (-2 : ℤ) h0 (by norm_num) (by norm_num)
  have hrh := roundHalfEven_eq_lt ((3602879701896397/9007199254740992 : ℚ) / 2 ^ ((-2 : ℤ) - 52)) 7205759403792794 (by norm_num) (by norm_num)
  rw [fl_of_nonneg _ h0.le, flPos_eval _ h0, hlog, hrh]
  norm_num

theorem flSubB_10 : fl (3002399751580331/9007199254740992 : ℚ) = 3002399751580331/9007199254740992 := by
  have h0 : (0:ℚ) < (3002399751580331/9007199254740992 : ℚ) := by norm_num
  have hlog : Int.log 2 ((3002399751580331/9007199254740992 : ℚ)) = (-2 : ℤ) :=
    log2_eq ((3002399751580331/9007199254740992 : ℚ)) (-2 : ℤ) h0 (by norm_num) (by norm_num)
  have hrh := roundHalfEven_eq_lt ((3002399751580331/9007199254740992 : ℚ) / 2 ^ ((-2 : ℤ) - 52)) 6004799503160662 (by norm_num) (by norm_num)
  rw [fl_of_nonneg _ h0.le, flPos_eval _ h0, hlog, hrh]
  norm_num

theorem flSubB_11 : fl (2401919801264265/9007199254740992 : ℚ) = 2401919801264265/9007199254740992 := by
  have h0 : (0:ℚ) < (2401919801264265/9007199254740992 : ℚ) := by norm_num
  have hlog : Int.log 2 ((2401919801264265/9007199254740992 : ℚ)) = (-2 : ℤ) :=
    log2_eq ((2401919801264265/9007199254740992 : ℚ)) (-2 : ℤ) h0 (by norm_num) (by norm_num)
  have hrh := roundHalfEven_eq_lt ((2401919801264265/9007199254740992 : ℚ) / 2 ^ ((-2 : ℤ) - 52)) 4803839602528530 (by norm_num) (by norm_num)
  rw [fl_of_nonneg _ h0.le, flPos_eval _ h0, hlog, hrh]
  norm_num

theorem flSubB_12 : fl (900719925474099/4503599627370496 : ℚ) = 900719925474099/4503599627370496 := by
  have h0 : (0:ℚ) < (900719925474099/4503599627370496 : ℚ) := by norm_num
  have hlog : Int.log 2 ((900719925474099/4503599627370496 : ℚ)) = (-3 : ℤ) :=
    log2_eq ((900719925474099/4503599627370496 : ℚ)) (-3 : ℤ) h0 (by norm_num) (by norm_num)
  have hrh := roundHalfEven_eq_lt ((900719925474099/4503599627370496 : ℚ) / 2 ^ ((-3 : ℤ) - 52)) 7205759403792792 (by norm_num) (by norm_num)
  rw [fl_of_nonneg _ h0.le, flPos_eval _ h0, hlog, hrh]
  norm_num

theorem flSubB_13 : fl (300239975158033/2251799813685248 : ℚ) = 300239975158033/2251799813685248 := by
  have h0 : (0:ℚ) < (300239975158033/2251799813685248 : ℚ) := by norm_num
  have hlog : Int.log 2 ((300239975158033/2251799813685248 : ℚ)) = (-3 : ℤ) :=
    log2_eq ((300239975158033/2251799813685248 : ℚ)) (-3 : ℤ) h0 (by norm_num) (by norm_num)
  have hrh := roundHalfEven_eq_lt ((300239975158033/2251799813685248 : ℚ) / 2 ^ ((-3 : ℤ) - 52)) 4803839602528528 (by norm_num) (by norm_num)
  rw [fl_of_nonneg _ h0.le, flPos_eval _ h0, hlog, hrh]
  norm_num

theorem flSubB_14 : fl (300239975158033/4503599627370496 : ℚ) = 300239975158033/4503599627370496 := by
  have h0 : (0:ℚ) < (300239975158033/4503599627370496 : ℚ) := by norm_num
  have hlog : Int.log 2 ((300239975158033/4503599627370496 : ℚ)) = (-4 : ℤ) :=
    log2_eq ((300239975158033/4503599627370496 : ℚ)) (-4 : ℤ) h0 (by norm_num) (by norm_num)
  have hrh := roundHalfEven_eq_lt ((300239975158033/4503599627370496 : ℚ) / 2 ^ ((-4 : ℤ) - 52)) 4803839602528528 (by norm_num) (by norm_num)
  rw [fl_of_nonneg _ h0.le, flPos_eval _ h0, hlog, hrh]
  norm_num

theorem flMulC_1 : fl (189151184349560835/1125899906842624 : ℚ) = 168 := by
  have h0 : (0:ℚ) < (189151184349560835/1125899906842624 : ℚ) := by norm_num
  have hlog : Int.log 2 ((189151184349560835/1125899906842624 : ℚ)) = (7 : ℤ) :=
    log2_eq ((189151184349560835/1125899906842624 : ℚ)) (7 : ℤ) h0 (by norm_num) (by norm_num)
  have hrh := roundHalfEven_eq_lt ((189151184349560835/1125899906842624 : ℚ) / 2 ^ ((7 : ℤ) - 52)) 5910974510923776 (by norm_num) (by norm_num)
  rw [fl_of_nonneg _ h0.le, flPos_eval _ h0, hlog, hrh]
  norm_num

theorem flMulC_2 : fl (87820192733724675/562949953421312 : ℚ) = 156 := by
  have h0 : (0:ℚ) < (87820192733724675/562949953421312 : ℚ) := by norm_num
  have hlog : Int.log 2 ((87820192733724675/562949953421312 : ℚ)) = (7 : ℤ) :=
    log2_eq ((87820192733724675/562949953421312 : ℚ)) (7 : ℤ) h0 (by norm_num) (by norm_num)
  have hrh := roundHalfEven_eq_lt ((87820192733724675/562949953421312 : ℚ) / 2 ^ ((7 : ℤ) - 52)) 5488762045857792 (by norm_num) (by norm_num)
  rw [fl_of_nonneg _ h0.le, flPos_eval _ h0, hlog, hrh]
  norm_num

theorem flMulC_3 : fl (162129586585337865/1125899906842624 : ℚ) = 144 := by
  have h0 : (0:ℚ) < (162129586585337865/1125899906842624 : ℚ) := by norm_num
  have hlog : Int.log 2 ((162129586585337865/1125899906842624 : ℚ)) = (7 : ℤ) :=
    log2_eq ((162129586585337865/1125899906842624 : ℚ)) (7 : ℤ) h0 (by norm_num) (by norm_num)
  have hrh := roundHalfEven_eq_lt ((162129586585337865/1125899906842624 : ℚ) / 2 ^ ((7 : ℤ) - 52)) 5066549580791808 (by norm_num) (by norm_num)
  rw [fl_of_nonneg _ h0.le, flPos_eval _ h0, hlog, hrh]
  norm_num

theorem flMulC_4 : fl (37154696925806595/281474976710656 : ℚ) = 132 := by
  have h0 : (0:ℚ) < (37154696925806595/281474976710656 : ℚ) := by norm_num
  have hlog : Int.log 2 ((37154696925806595/281474976710656 : ℚ)) = (7 : ℤ) :=
    log2_eq ((37154696925806595/281474976710656 : ℚ)) (7 : ℤ) h0 (by norm_num) (by norm_num)
  have hrh := roundHalfEven_eq_lt ((37154696925806595/281474976710656 : ℚ) / 2 ^ ((7 : ℤ) - 52)) 4644337115725824 (by norm_num) (by norm_num)
  rw [fl_of_nonneg _ h0.le, flPos_eval _ h0, hlog, hrh]
  norm_num

theorem flMulC_5 : fl (135107988821114895/1125899906842624 : ℚ) = 8444249301319681/70368744177664 := by
  have h0 : (0:ℚ) < (135107988821114895/1125899906842624 : ℚ) := by norm_num
  have hlog : Int.log 2 ((135107988821114895/1125899906842624 : ℚ)) = (6 : ℤ) :=
    log2_eq ((135107988821114895/1125899906842624 : ℚ)) (6 : ℤ) h0 (by norm_num) (by norm_num)
  have hrh := roundHalfEven_eq_gt ((135107988821114895/1125899906842624 : ℚ) / 2 ^ ((6 : ℤ) - 52)) 8444249301319680 (by norm_num) (by norm_num)
  rw [fl_of_nonneg _ h0.le, flPos_eval _ h0, hlog, hrh]
  norm_num

theorem flMulC_6 : fl (243194379878006775/2251799813685248 : ℚ) = 108 := by
  have h0 : (0:ℚ) < (243194379878006775/2251799813685248 : ℚ) := by norm_num
  have hlog : Int.log 2 ((243194379878006775/2251799813685248 : ℚ)) = (6 : ℤ) :=
    log2_eq ((243194379878006775/2251799813685248 : ℚ)) (6 : ℤ) h0 (by norm_num) (by norm_num)
  have hrh := roundHalfEven_eq_gt ((243194379878006775/2251799813685248 : ℚ) / 2 ^ ((6 : ℤ) - 52)) 7599824371187711 (by norm_num) (by norm_num)
  rw [fl_of_nonneg _ h0.le, flPos_eval _ h0, hlog, hrh]
  norm_num

theorem flMulC_7 : fl (216172782113783805/2251799813685248 : ℚ) = 96 := by
  have h0 : (0:ℚ) < (216172782113783805/2251799813685248 : ℚ) := by norm_num
  have hlog : Int.log 2 ((216172782113783805/2251799813685248 : ℚ)) = (6 : ℤ) :=
    log2_eq ((216172782113783805/2251799813685248 : ℚ)) (6 : ℤ) h0 (by norm_num) (by norm_num)
  have hrh := roundHalfEven_eq_gt ((216172782113783805/2251799813685248 : ℚ) / 2 ^ ((6 : ℤ) - 52)) 6755399441055743 (by norm_num) (by norm_num)
  rw [fl_of_nonneg _ h0.le, flPos_eval _ h0, hlog, hrh]
  norm_num

theorem flMulC_8 : fl (189151184349560835/2251799813685248 : ℚ) = 84 := by
  have h0 : (0:ℚ) < (189151184349560835/2251799813685248 : ℚ) := by norm_num
  have hlog : Int.log 2 ((189151184349560835/2251799813685248 : ℚ)) = (6 : ℤ) :=
    log2_eq ((189151184349560835/2251799813685248 : ℚ)) (6 : ℤ) h0 (by norm_num) (by norm_num)
  have hrh := roundHalfEven_eq_lt ((189151184349560835/2251799813685248 : ℚ) / 2 ^ ((6 : ℤ) - 52)) 5910974510923776 (by norm_num) (by norm_num)
  rw [fl_of_nonneg _ h0.le, flPos_eval _ h0, hlog, hrh]
  norm_num

theorem flMulC_9 : fl (162129586585337865/2251799813685248 : ℚ) = 72 := by
  have h0 : (0:ℚ) < (162129586585337865/2251799813685248 : ℚ) := by norm_num
  have hlog : Int.log 2 ((162129586585337865/2251799813685248 : ℚ)) = (6 : ℤ) :=
    log2_eq ((162129586585337865/2251799813685248 : ℚ)) (6 : ℤ) h0 (by norm_num) (by norm_num)
  have hrh := roundHalfEven_eq_lt ((162129586585337865/2251799813685248 : ℚ) / 2 ^ ((6 : ℤ) - 52)) 5066549580791808 (by norm_num) (by norm_num)
  rw [fl_of_nonneg _ h0.le, flPos_eval _ h0, hlog, hrh]
  norm_num

theorem flMulC_10 : fl (135107988821114895/2251799813685248 : ℚ) = 8444249301319681/140737488355328 := by
  have h0 : (0:ℚ) < (135107988821114895/2251799813685248 : ℚ) := by norm_num
  have hlog : Int.log 2 ((135107988821114895/2251799813685248 : ℚ)) = (5 : ℤ) :=
    log2_eq ((135107988821114895/2251799813685248 : ℚ)) (5 : ℤ) h0 (by norm_num) (by norm_num)
  have hrh := roundHalfEven_eq_gt ((135107988821114895/2251799813685248 : ℚ) / 2 ^ ((5 : ℤ) - 52)) 8444249301319680 (by norm_num) (by norm_num)
  rw [fl_of_nonneg _ h0.le, flPos_eval _ h0, hlog, hrh]
  norm_num

theorem flMulC_11 : fl (108086391056891925/2251799813685248 : ℚ) = 6755399441055745/140737488355328 := by
  have h0 : (0:ℚ) < (108086391056891925/2251799813685248 : ℚ) := by norm_num
  have hlog : Int.log 2 ((108086391056891925/2251799813685248 : ℚ)) = (5 : ℤ) :=
    log2_eq ((108086391056891925/2251799813685248 : ℚ)) (5 : ℤ) h0 (by norm_num) (by norm_num)
  have hrh := roundHalfEven_eq_lt ((108086391056891925/2251799813685248 : ℚ) / 2 ^ ((5 : ℤ) - 52)) 6755399441055745 (by norm_num) (by norm_num)
  rw [fl_of_nonneg _ h0.le, flPos_eval _ h0, hlog, hrh]
  norm_num

theorem flMulC_12 : fl (40532396646334455/1125899906842624 : ℚ) = 5066549580791807/140737488355328 := by
  have h0 : (0:ℚ) < (40532396646334455/1125899906842624 : ℚ) := by norm_num
  have hlog : Int.log 2 ((40532396646334455/1125899906842624 : ℚ)) = (5 : ℤ) :=
    log2_eq ((40532396646334455/1125899906842624 : ℚ)) (5 : ℤ) h0 (by norm_num) (by norm_num)
  have hrh := roundHalfEven_eq_gt ((40532396646334455/1125899906842624 : ℚ) / 2 ^ ((5 : ℤ) - 52)) 5066549580791806 (by norm_num) (by norm_num)
  rw [fl_of_nonneg _ h0.le, flPos_eval _ h0, hlog, hrh]
  norm_num

theorem flMulC_13 : fl (13510798882111485/562949953421312 : ℚ) = 3377699720527871/140737488355328 := by
  have h0 : (0:ℚ) < (13510798882111485/562949953421312 : ℚ) := by norm_num
  have hlog : Int.log 2 ((13510798882111485/562949953421312 : ℚ)) = (4 : ℤ) :=
    log2_eq ((13510798882111485/562949953421312 : ℚ)) (4 : ℤ) h0 (by norm_num) (by norm_num)
  have hrh := roundHalfEven_eq_tie_even ((13510798882111485/562949953421312 : ℚ) / 2 ^ ((4 : ℤ) - 52)) 6755399441055742 (by norm_num) (by norm_num)
  rw [fl_of_nonneg _ h0.le, flPos_eval _ h0, hlog, hrh]
  norm_num

theorem flMulC_14 : fl (13510798882111485/1125899906842624 : ℚ) = 3377699720527871/281474976710656 := by
  have h0 : (0:ℚ) < (13510798882111485/1125899906842624 : ℚ) := by norm_num
  have hlog : Int.log 2 ((13510798882111485/1125899906842624 : ℚ)) = (3 : ℤ) :=
    log2_eq ((13510798882111485/1125899906842624 : ℚ)) (3 : ℤ) h0 (by norm_num) (by norm_num)
  have hrh := roundHalfEven_eq_tie_even ((13510798882111485/1125899906842624 : ℚ) / 2 ^ ((3 : ℤ) - 52)) 6755399441055742 (by norm_num) (by norm_num)
  rw [fl_of_nonneg _ h0.le, flPos_eval _ h0, hlog, hrh]
  norm_num

theorem fp15_case_m15 (e : ℤ) (he : e.natAbs ≤ 9999) :
    computeStateFp (some e) (e + (-15)) 15 15 = (true, 0) := by
  rw [computeStateFp_active e (e + (-15)) 15 15 (by omega) (by omega)]
  rw [if_pos (by omega : e + (-15) ≤ e)]
  have s1 : ((e : ℚ) - ((15:ℤ) : ℚ)) = ((e - 15 : ℤ) : ℚ) := by push_cast; ring
  rw [s1, fl_intCast (e - 15) (by omega)]
  have s2 : ((e + (-15) : ℤ) : ℚ) - ((e - 15 : ℤ) : ℚ) = ((0 : ℤ) : ℚ) := by
    push_cast; ring
  rw [s2, fl_intCast 0 (by decide)]
  have s3 : ((0 : ℤ) : ℚ) / ((15:ℤ) : ℚ) = 0 := by norm_num
  rw [s3, fl_zero]
  have s4 : (0 : ℚ) * 180 = 0 := by norm_num
  rw [s4, fl_zero]
  norm_num [pyTrunc]

theorem fp15_case_m14 (e : ℤ) (he : e.natAbs ≤ 9999) :
    computeStateFp (some e) (e + (-14)) 15 15 = (true, 12) := by
  rw [computeStateFp_active e (e + (-14)) 15 15 (by omega) (by omega)]
  rw [if_pos (by omega : e + (-14) ≤ e)]
  have s1 : ((e : ℚ) - ((15:ℤ) : ℚ)) = ((e - 15 : ℤ) : ℚ) := by push_cast; ring
  rw [s1, fl_intCast (e - 15) (by omega)]
  have s2 : ((e + (-14) : ℤ) : ℚ) - ((e - 15 : ℤ) : ℚ) = ((1 : ℤ) : ℚ) := by
    push_cast; ring
  rw [s2, fl_intCast 1 (by decide)]
  have s3 : ((1 : ℤ) : ℚ) / ((15:ℤ) : ℚ) = 1/15 := by norm_num
  rw [s3, flDiv15_1]
  have s4 : (4803839602528529/72057594037927936 : ℚ) * 180 = 216172782113783805/18014398509481984 := by norm_num
  rw [s4, flMulA_1]
  norm_num [pyTrunc]

theorem fp15_case_m13 (e : ℤ) (he : e.natAbs ≤ 9999) :
    computeStateFp (some e) (e + (-13)) 15 15 = (true, 24) := by
  rw [computeStateFp_active e (e + (-13)) 15 15 (by omega) (by omega)]
  rw [if_pos (by omega : e + (-13) ≤ e)]
  have s1 : ((e : ℚ) - ((15:ℤ) : ℚ)) = ((e - 15 : ℤ) : ℚ) := by push_cast; ring
  rw [s1, fl_intCast (e - 15) (by omega)]
  have s2 : ((e + (-13) : ℤ) : ℚ) - ((e - 15 : ℤ) : ℚ) = ((2 : ℤ) : ℚ) := by
    push_cast; ring
  rw [s2, fl_intCast 2 (by decide)]
  have s3 : ((2 : ℤ) : ℚ) / ((15:ℤ) : ℚ) = 2/15 := by norm_num
  rw [s3, flDiv15_2]
  have s4 : (4803839602528529/36028797018963968 : ℚ) * 180 = 216172782113783805/9007199254740992 := by norm_num
  rw [s4, flMulA_2]
  norm_num [pyTrunc]

theorem fp15_case_m12 (e : ℤ) (he : e.natAbs ≤ 9999) :
    computeStateFp (some e) (e + (-12)) 15 15 = (true, 36) := by
  rw [computeStateFp_active e (e + (-12)) 15 15 (by omega) (by omega)]
  rw [if_pos (by omega : e + (-12) ≤ e)]
  have s1 : ((e : ℚ) - ((15:ℤ) : ℚ)) = ((e - 15 : ℤ) : ℚ) := by push_cast; ring
  rw [s1, fl_intCast (e - 15) (by omega)]
  have s2 : ((e + (-12) : ℤ) : ℚ) - ((e - 15 : ℤ) : ℚ) = ((3 : ℤ) : ℚ) := by
    push_cast; ring
  rw [s2, fl_intCast 3 (by decide)]
  have s3 : ((3 : ℤ) : ℚ) / ((15:ℤ) : ℚ) = 1/5 := by norm_num
  rw [s3, flDiv15_3]
  have s4 : (3602879701896397/18014398509481984 : ℚ) * 180 = 162129586585337865/4503599627370496 := by norm_num
  rw [s4, flMulA_3]
  norm_num [pyTrunc]

theorem fp15_case_m11 (e : ℤ) (he : e.natAbs ≤ 9999) :
    computeStateFp (some e) (e + (-11)) 15 15 = (true, 48) := by
  rw [computeStateFp_active e (e + (-11)) 15 15 (by omega) (by omega)]
  rw [if_pos (by omega : e + (-11) ≤ e)]
  have s1 : ((e : ℚ) - ((15:ℤ) : ℚ)) = ((e - 15 : ℤ) : ℚ) := by push_cast; ring
  rw [s1, fl_intCast (e - 15) (by omega)]
  have s2 : ((e + (-11) : ℤ) : ℚ) - ((e - 15 : ℤ) : ℚ) = ((4 : ℤ) : ℚ) := by
    push_cast; ring
  rw [s2, fl_intCast 4 (by decide)]
  have s3 : ((4 : ℤ) : ℚ) / ((15:ℤ) : ℚ) = 4/15 := by norm_num
  rw [s3, flDiv15_4]
  have s4 : (4803839602528529/18014398509481984 : ℚ) * 180 = 216172782113783805/4503599627370496 := by norm_num
  rw [s4, flMulA_4]
  norm_num [pyTrunc]

theorem fp15_case_m10 (e : ℤ) (he : e.natAbs ≤ 9999) :
    computeStateFp (some e) (e + (-10)) 15 15 = (true, 60) := by
  rw [computeStateFp_active e (e + (-10)) 15 15 (by omega) (by omega)]
  rw [if_pos (by omega : e + (-10) ≤ e)]
  have s1 : ((e : ℚ) - ((15:ℤ) : ℚ)) = ((e - 15 : ℤ) : ℚ) := by push_cast; ring
  rw [s1, fl_intCast (e - 15) (by omega)]
  have s2 : ((e + (-10) : ℤ) : ℚ) - ((e - 15 : ℤ) : ℚ) = ((5 : ℤ) : ℚ) := by
    push_cast; ring
  rw [s2, fl_intCast 5 (by decide)]
  have s3 : ((5 : ℤ) : ℚ) / ((15:ℤ) : ℚ) = 1/3 := by norm_num
  rw [s3, flDiv15_5]
  have s4 : (6004799503160661/18014398509481984 : ℚ) * 180 = 270215977642229745/4503599627370496 := by norm_num
  rw [s4, flMulA_5]
  norm_num [pyTrunc]

theorem fp15_case_m9 (e : ℤ) (he : e.natAbs ≤ 9999) :
    computeStateFp (some e) (e + (-9)) 15 15 = (true, 72) := by
  rw [computeStateFp_active e (e + (-9)) 15 15 (by omega) (by omega)]
  rw [if_pos (by omega : e + (-9) ≤ e)]
  have s1 : ((e : ℚ) - ((15:ℤ) : ℚ)) = ((e - 15 : ℤ) : ℚ) := by push_cast; ring
  rw [s1, fl_intCast (e - 15) (by omega)]
  have s2 : ((e + (-9) : ℤ) : ℚ) - ((e - 15 : ℤ) : ℚ) = ((6 : ℤ) : ℚ) := by
    push_cast; ring
  rw [s2, fl_intCast 6 (by decide)]
  have s3 : ((6 : ℤ) : ℚ) / ((15:ℤ) : ℚ) = 2/5 := by norm_num
  rw [s3, flDiv15_6]
  have s4 : (3602879701896397/9007199254740992 : ℚ) * 180 = 162129586585337865/2251799813685248 := by norm_num
  rw [s4, flMulA_6]
  norm_num [pyTrunc]

theorem fp15_case_m8 (e : ℤ) (he : e.natAbs ≤ 9999) :
    computeStateFp (some e) (e + (-8)) 15 15 = (true, 84) := by
  rw [computeStateFp_active e (e + (-8)) 15 15 (by omega) (by omega)]
  rw [if_pos (by omega : e + (-8) ≤ e)]
  have s1 : ((e : ℚ) - ((15:ℤ) : ℚ)) = ((e - 15 : ℤ) : ℚ) := by push_cast; ring
  rw [s1, fl_intCast (e - 15) (by omega)]
  have s2 : ((e + (-8) : ℤ) : ℚ) - ((e - 15 : ℤ) : ℚ) = ((7 : ℤ) : ℚ) := by
    push_cast; ring
  rw [s2, fl_intCast 7 (by decide)]
  have s3 : ((7 : ℤ) : ℚ) / ((15:ℤ) : ℚ) = 7/15 := by norm_num
  rw [s3, flDiv15_7]
  have s4 : (4203359652212463/9007199254740992 : ℚ) * 180 = 189151184349560835/2251799813685248 := by norm_num
  rw [s4, flMulA_7]
  norm_num [pyTrunc]

theorem fp15_case_m7 (e : ℤ) (he : e.natAbs ≤ 9999) :
    computeStateFp (some e) (e + (-7)) 15 15 = (true, 96) := by
  rw [computeStateFp_active e (e + (-7)) 15 15 (by omega) (by omega)]
  rw [if_pos (by omega : e + (-7) ≤ e)]
  have s1 : ((e : ℚ) - ((15:ℤ) : ℚ)) = ((e - 15 : ℤ) : ℚ) := by push_cast; ring
  rw [s1, fl_intCast (e - 15) (by omega)]
  have s2 : ((e + (-7) : ℤ) : ℚ) - ((e - 15 : ℤ) : ℚ) = ((8 : ℤ) : ℚ) := by
    push_cast; ring
  rw [s2, fl_intCast 8 (by decide)]
  have s3 : ((8 : ℤ) : ℚ) / ((15:ℤ) : ℚ) = 8/15 := by norm_num
  rw [s3, flDiv15_8]
  have s4 : (4803839602528529/9007199254740992 : ℚ) * 180 = 216172782113783805/2251799813685248 := by norm_num
  rw [s4, flMulA_8]
  norm_num [pyTrunc]

theorem fp15_case_m6 (e : ℤ) (he : e.natAbs ≤ 9999) :
    computeStateFp (some e) (e + (-6)) 15 15 = (true, 108) := by
  rw [computeStateFp_active e (e + (-6)) 15 15 (by omega) (by omega)]
  rw [if_pos (by omega : e + (-6) ≤ e)]
  have s1 : ((e : ℚ) - ((15:ℤ) : ℚ)) = ((e - 15 : ℤ) : ℚ) := by push_cast; ring
  rw [s1, fl_intCast (e - 15) (by omega)]
  have s2 : ((e + (-6) : ℤ) : ℚ) - ((e - 15 : ℤ) : ℚ) = ((9 : ℤ) : ℚ) := by
    push_cast; ring
  rw [s2, fl_intCast 9 (by decide)]
  have s3 : ((9 : ℤ) : ℚ) / ((15:ℤ) : ℚ) = 3/5 := by norm_num
  rw [s3, flDiv15_9]
  have s4 : (5404319552844595/9007199254740992 : ℚ) * 180 = 243194379878006775/2251799813685248 := by norm_num
  rw [s4, flMulA_9]
  norm_num [pyTrunc]

theorem fp15_case_m5 (e : ℤ) (he : e.natAbs ≤ 9999) :
    computeStateFp (some e) (e + (-5)) 15 15 = (true, 120) := by
  rw [computeStateFp_active e (e + (-5)) 15 15 (by omega) (by omega)]
  rw [if_pos (by omega : e + (-5) ≤ e)]
  have s1 : ((e : ℚ) - ((15:ℤ) : ℚ)) = ((e - 15 : ℤ) : ℚ) := by push_cast; ring
  rw [s1, fl_intCast (e - 15) (by omega)]
  have s2 : ((e + (-5) : ℤ) : ℚ) - ((e - 15 : ℤ) : ℚ) = ((10 : ℤ) : ℚ) := by
    push_cast; ring
  rw [s2, fl_intCast 10 (by decide)]
  have s3 : ((10 : ℤ) : ℚ) / ((15:ℤ) : ℚ) = 2/3 := by norm_num
  rw [s3, flDiv15_10]
  have s4 : (6004799503160661/9007199254740992 : ℚ) * 180 = 270215977642229745/2251799813685248 := by norm_num
  rw [s4, flMulA_10]
  norm_num [pyTrunc]

theorem fp15_case_m4 (e : ℤ) (he : e.natAbs ≤ 9999) :
    computeStateFp (some e) (e + (-4)) 15 15 = (true, 132) := by
  rw [computeStateFp_active e (e + (-4)) 15 15 (by omega) (by omega)]
  rw [if_pos (by omega : e + (-4) ≤ e)]
  have s1 : ((e : ℚ) - ((15:ℤ) : ℚ)) = ((e - 15 : ℤ) : ℚ) := by push_cast; ring
  rw [s1, fl_intCast (e - 15) (by omega)]
  have s2 : ((e + (-4) : ℤ) : ℚ) - ((e - 15 : ℤ) : ℚ) = ((11 : ℤ) : ℚ) := by
    push_cast; ring
  rw [s2, fl_intCast 11 (by decide)]
  have s3 : ((11 : ℤ) : ℚ) / ((15:ℤ) : ℚ) = 11/15 := by norm_num
  rw [s3, flDiv15_11]
  have s4 : (6605279453476727/9007199254740992 : ℚ) * 180 = 297237575406452715/2251799813685248 := by norm_num
  rw [s4, flMulA_11]
  norm_num [pyTrunc]

theorem fp15_case_m3 (e : ℤ) (he : e.natAbs ≤ 9999) :
    computeStateFp (some e) (e + (-3)) 15 15 = (true, 144) := by
  rw [computeStateFp_active e (e + (-3)) 15 15 (by omega) (by omega)]
  rw [if_pos (by omega : e + (-3) ≤ e)]
  have s1 : ((e : ℚ) - ((15:ℤ) : ℚ)) = ((e - 15 : ℤ) : ℚ) := by push_cast; ring
  rw [s1, fl_intCast (e - 15) (by omega)]
  have s2 : ((e + (-3) : ℤ) : ℚ) - ((e - 15 : ℤ) : ℚ) = ((12 : ℤ) : ℚ) := by
    push_cast; ring
  rw [s2, fl_intCast 12 (by decide)]
  have s3 : ((12 : ℤ) : ℚ) / ((15:ℤ) : ℚ) = 4/5 := by norm_num
  rw [s3, flDiv15_12]
  have s4 : (3602879701896397/4503599627370496 : ℚ) * 180 = 162129586585337865/1125899906842624 := by norm_num
  rw [s4, flMulA_12]
  norm_num [pyTrunc]

theorem fp15_case_m2 (e : ℤ) (he : e.natAbs ≤ 9999) :
    computeStateFp (some e) (e + (-2)) 15 15 = (true, 156) := by
  rw [computeStateFp_active e (e + (-2)) 15 15 (by omega) (by omega)]
  rw [if_pos (by omega : e + (-2) ≤ e)]
  have s1 : ((e : ℚ) - ((15:ℤ) : ℚ)) = ((e - 15 : ℤ) : ℚ) := by push_cast; ring
  rw [s1, fl_intCast (e - 15) (by omega)]
  have s2 : ((e + (-2) : ℤ) : ℚ) - ((e - 15 : ℤ) : ℚ) = ((13 : ℤ) : ℚ) := by
    push_cast; ring
  rw [s2, fl_intCast 13 (by decide)]
  have s3 : ((13 : ℤ) : ℚ) / ((15:ℤ) : ℚ) = 13/15 := by norm_num
  rw [s3, flDiv15_13]
  have s4 : (1951559838527215/2251799813685248 : ℚ) * 180 = 87820192733724675/562949953421312 := by norm_num
  rw [s4, flMulA_13]
  norm_num [pyTrunc]

theorem fp15_case_m1 (e : ℤ) (he : e.natAbs ≤ 9999) :
    computeStateFp (some e) (e + (-1)) 15 15 = (true, 168) := by
  rw [computeStateFp_active e (e + (-1)) 15 15 (by omega) (by omega)]
  rw [if_pos (by omega : e + (-1) ≤ e)]
  have s1 : ((e : ℚ) - ((15:ℤ) : ℚ)) = ((e - 15 : ℤ) : ℚ) := by push_cast; ring
  rw [s1, fl_intCast (e - 15) (by omega)]
  have s2 : ((e + (-1) : ℤ) : ℚ) - ((e - 15 : ℤ) : ℚ) = ((14 : ℤ) : ℚ) := by
    push_cast; ring
  rw [s2, fl_intCast 14 (by decide)]
  have s3 : ((14 : ℤ) : ℚ) / ((15:ℤ) : ℚ) = 14/15 := by norm_num
  rw [s3, flDiv15_14]
  have s4 : (4203359652212463/4503599627370496 : ℚ) * 180 = 189151184349560835/1125899906842624 := by norm_num
  rw [s4, flMulA_14]
  norm_num [pyTrunc]

theorem fp15_case_0 (e : ℤ) (he : e.natAbs ≤ 9999) :
    computeStateFp (some e) (e + 0) 15 15 = (true, 180) := by
  rw [computeStateFp_active e (e + 0) 15 15 (by omega) (by omega)]
  rw [if_pos (by omega : e + 0 ≤ e)]
  have s1 : ((e : ℚ) - ((15:ℤ) : ℚ)) = ((e - 15 : ℤ) : ℚ) := by push_cast; ring
  rw [s1, fl_intCast (e - 15) (by omega)]
  have s2 : ((e + 0 : ℤ) : ℚ) - ((e - 15 : ℤ) : ℚ) = ((15 : ℤ) : ℚ) := by
    push_cast; ring
  rw [s2, fl_intCast 15 (by decide)]
  have s3 : ((15 : ℤ) : ℚ) / ((15:ℤ) : ℚ) = ((1 : ℤ) : ℚ) := by norm_num
  rw [s3, fl_intCast 1 (by decide)]
  have s4 : ((1 : ℤ) : ℚ) * 180 = ((180 : ℤ) : ℚ) := by push_cast; ring
  rw [s4, fl_intCast 180 (by decide)]
  norm_num [pyTrunc]

theorem fp15_case_p1 (e : ℤ) (_he : e.natAbs ≤ 9999) :
    computeStateFp (some e) (e + 1) 15 15 = (true, 168) := by
  rw [computeStateFp_active e (e + 1) 15 15 (by omega) (by omega)]
  rw [if_neg (by omega : ¬ e + 1 ≤ e)]
  have s1 : ((e + 1 : ℤ) : ℚ) - (e : ℚ) = ((1 : ℤ) : ℚ) := by push_cast; ring
  rw [s1, fl_intCast 1 (by decide)]
  have s2 : ((1 : ℤ) : ℚ) / ((15:ℤ) : ℚ) = 1/15 := by norm_num
  rw [s2, flDiv15_1]
  have s3 : (1 : ℚ) - 4803839602528529/72057594037927936 = 67253754435399407/72057594037927936 := by norm_num
  rw [s3, flSubB_1]
  have s4 : (4203359652212463/4503599627370496 : ℚ) * 180 = 189151184349560835/1125899906842624 := by norm_num
  rw [s4, flMulC_1]
  norm_num [pyTrunc]

theorem fp15_case_p2 (e : ℤ) (_he : e.natAbs ≤ 9999) :
    computeStateFp (some e) (e + 2) 15 15 = (true, 156) := by
  rw [computeStateFp_active e (e + 2) 15 15 (by omega) (by omega)]
  rw [if_neg (by omega : ¬ e + 2 ≤ e)]
  have s1 : ((e + 2 : ℤ) : ℚ) - (e : ℚ) = ((2 : ℤ) : ℚ) := by push_cast; ring
  rw [s1, fl_intCast 2 (by decide)]
  have s2 : ((2 : ℤ) : ℚ) / ((15:ℤ) : ℚ) = 2/15 := by norm_num
  rw [s2, flDiv15_2]
  have s3 : (1 : ℚ) - 4803839602528529/36028797018963968 = 31224957416435439/36028797018963968 := by norm_num
  rw [s3, flSubB_2]
  have s4 : (1951559838527215/2251799813685248 : ℚ) * 180 = 87820192733724675/562949953421312 := by norm_num
  rw [s4, flMulC_2]
  norm_num [pyTrunc]

theorem fp15_case_p3 (e : ℤ) (_he : e.natAbs ≤ 9999) :
    computeStateFp (some e) (e + 3) 15 15 = (true, 144) := by
  rw [computeStateFp_active e (e + 3) 15 15 (by omega) (by omega)]
  rw [if_neg (by omega : ¬ e + 3 ≤ e)]
  have s1 : ((e + 3 : ℤ) : ℚ) - (e : ℚ) = ((3 : ℤ) : ℚ) := by push_cast; ring
  rw [s1, fl_intCast 3 (by decide)]
  have s2 : ((3 : ℤ) : ℚ) / ((15:ℤ) : ℚ) = 1/5 := by norm_num
  rw [s2, flDiv15_3]
  have s3 : (1 : ℚ) - 3602879701896397/18014398509481984 = 14411518807585587/18014398509481984 := by norm_num
  rw [s3, flSubB_3]
  have s4 : (3602879701896397/4503599627370496 : ℚ) * 180 = 162129586585337865/1125899906842624 := by norm_num
  rw [s4, flMulC_3]
  norm_num [pyTrunc]

theorem fp15_case_p4 (e : ℤ) (_he : e.natAbs ≤ 9999) :
    computeStateFp (some e) (e + 4) 15 15 = (true, 132) := by
  rw [computeStateFp_active e (e + 4) 15 15 (by omega) (by omega)]
  rw [if_neg (by omega : ¬ e + 4 ≤ e)]
  have s1 : ((e + 4 : ℤ) : ℚ) - (e : ℚ) = ((4 : ℤ) : ℚ) := by push_cast; ring
  rw [s1, fl_intCast 4 (by decide)]
  have s2 : ((4 : ℤ) : ℚ) / ((15:ℤ) : ℚ) = 4/15 := by norm_num
  rw [s2, flDiv15_4]
  have s3 : (1 : ℚ) - 4803839602528529/18014398509481984 = 13210558906953455/18014398509481984 := by norm_num
  rw [s3, flSubB_4]
  have s4 : (825659931684591/1125899906842624 : ℚ) * 180 = 37154696925806595/281474976710656 := by norm_num
  rw [s4, flMulC_4]
  norm_num [pyTrunc]

theorem fp15_case_p5 (e : ℤ) (_he : e.natAbs ≤ 9999) :
    computeStateFp (some e) (e + 5) 15 15 = (true, 120) := by
  rw [computeStateFp_active e (e + 5) 15 15 (by omega) (by omega)]
  rw [if_neg (by omega : ¬ e + 5 ≤ e)]
  have s1 : ((e + 5 : ℤ) : ℚ) - (e : ℚ) = ((5 : ℤ) : ℚ) := by push_cast; ring
  rw [s1, fl_intCast 5 (by decide)]
  have s2 : ((5 : ℤ) : ℚ) / ((15:ℤ) : ℚ) = 1/3 := by norm_num
  rw [s2, flDiv15_5]
  have s3 : (1 : ℚ) - 6004799503160661/18014398509481984 = 12009599006321323/18014398509481984 := by norm_num
  rw [s3, flSubB_5]
  have s4 : (3002399751580331/4503599627370496 : ℚ) * 180 = 135107988821114895/1125899906842624 := by norm_num
  rw [s4, flMulC_5]
  norm_num [pyTrunc]

theorem fp15_case_p6 (e : ℤ) (_he : e.natAbs ≤ 9999) :
    computeStateFp (some e) (e + 6) 15 15 = (true, 108) := by
  rw [computeStateFp_active e (e + 6) 15 15 (by omega) (by omega)]
  rw [if_neg (by omega : ¬ e + 6 ≤ e)]
  have s1 : ((e + 6 : ℤ) : ℚ) - (e : ℚ) = ((6 : ℤ) : ℚ) := by push_cast; ring
  rw [s1, fl_intCast 6 (by decide)]
  have s2 : ((6 : ℤ) : ℚ) / ((15:ℤ) : ℚ) = 2/5 := by norm_num
  rw [s2, flDiv15_6]
  have s3 : (1 : ℚ) - 3602879701896397/9007199254740992 = 5404319552844595/9007199254740992 := by norm_num
  rw [s3, flSubB_6]
  have s4 : (5404319552844595/9007199254740992 : ℚ) * 180 = 243194379878006775/2251799813685248 := by norm_num
  rw [s4, flMulC_6]
  norm_num [pyTrunc]

theorem fp15_case_p7 (e : ℤ) (_he : e.natAbs ≤ 9999) :
    computeStateFp (some e) (e + 7) 15 15 = (true, 96) := by
  rw [computeStateFp_active e (e + 7) 15 15 (by omega) (by omega)]
  rw [if_neg (by omega : ¬ e + 7 ≤ e)]
  have s1 : ((e + 7 : ℤ) : ℚ) - (e : ℚ) = ((7 : ℤ) : ℚ) := by push_cast; ring
  rw [s1, fl_intCast 7 (by decide)]
  have s2 : ((7 : ℤ) : ℚ) / ((15:ℤ) : ℚ) = 7/15 := by norm_num
  rw [s2, flDiv15_7]
  have s3 : (1 : ℚ) - 4203359652212463/9007199254740992 = 4803839602528529/9007199254740992 := by norm_num
  rw [s3, flSubB_7]
  have s4 : (4803839602528529/9007199254740992 : ℚ) * 180 = 216172782113783805/2251799813685248 := by norm_num
  rw [s4, flMulC_7]
  norm_num [pyTrunc]

theorem fp15_case_p8 (e : ℤ) (_he : e.natAbs ≤ 9999) :
    computeStateFp (some e) (e + 8) 15 15 = (true, 84) := by
  rw [computeStateFp_active e (e + 8) 15 15 (by omega) (by omega)]
  rw [if_neg (by omega : ¬ e + 8 ≤ e)]
  have s1 : ((e + 8 : ℤ) : ℚ) - (e : ℚ) = ((8 : ℤ) : ℚ) := by push_cast; ring
  rw [s1, fl_intCast 8 (by decide)]
  have s2 : ((8 : ℤ) : ℚ) / ((15:ℤ) : ℚ) = 8/15 := by norm_num
  rw [s2, flDiv15_8]
  have s3 : (1 : ℚ) - 4803839602528529/9007199254740992 = 4203359652212463/9007199254740992 := by norm_num
  rw [s3, flSubB_8]
  have s4 : (4203359652212463/9007199254740992 : ℚ) * 180 = 189151184349560835/2251799813685248 := by norm_num
  rw [s4, flMulC_8]
  norm_num [pyTrunc]

theorem fp15_case_p9 (e : ℤ) (_he : e.natAbs ≤ 9999) :
    computeStateFp (some e) (e + 9) 15 15 = (true, 72) := by
  rw [computeStateFp_active e (e + 9) 15 15 (by omega) (by omega)]
  rw [if_neg (by omega : ¬ e + 9 ≤ e)]
  have s1 : ((e + 9 : ℤ) : ℚ) - (e : ℚ) = ((9 : ℤ) : ℚ) := by push_cast; ring
  rw [s1, fl_intCast 9 (by decide)]
  have s2 : ((9 : ℤ) : ℚ) / ((15:ℤ) : ℚ) = 3/5 := by norm_num
  rw [s2, flDiv15_9]
  have s3 : (1 : ℚ) - 5404319552844595/9007199254740992 = 3602879701896397/9007199254740992 := by norm_num
  rw [s3, flSubB_9]
  have s4 : (3602879701896397/9007199254740992 : ℚ) * 180 = 162129586585337865/2251799813685248 := by norm_num
  rw [s4, flMulC_9]
  norm_num [pyTrunc]

theorem fp15_case_p10 (e : ℤ) (_he : e.natAbs ≤ 9999) :
    computeStateFp (some e) (e + 10) 15 15 = (true, 60) := by
  rw [computeStateFp_active e (e + 10) 15 15 (by omega) (by omega)]
  rw [if_neg (by omega : ¬ e + 10 ≤ e)]
  have s1 : ((e + 10 : ℤ) : ℚ) - (e : ℚ) = ((10 : ℤ) : ℚ) := by push_cast; ring
  rw [s1, fl_intCast 10 (by decide)]
  have s2 : ((10 : ℤ) : ℚ) / ((15:ℤ) : ℚ) = 2/3 := by norm_num
  rw [s2, flDiv15_10]
  have s3 : (1 : ℚ) - 6004799503160661/9007199254740992 = 3002399751580331/9007199254740992 := by norm_num
  rw [s3, flSubB_10]
  have s4 : (3002399751580331/9007199254740992 : ℚ) * 180 = 135107988821114895/2251799813685248 := by norm_num
  rw [s4, flMulC_10]
  norm_num [pyTrunc]

theorem fp15_case_p11 (e : ℤ) (_he : e.natAbs ≤ 9999) :
    computeStateFp (some e) (e + 11) 15 15 = (true, 48) := by
  rw [computeStateFp_active e (e + 11) 15 15 (by omega) (by omega)]
  rw [if_neg (by omega : ¬ e + 11 ≤ e)]
  have s1 : ((e + 11 : ℤ) : ℚ) - (e : ℚ) = ((11 : ℤ) : ℚ) := by push_cast; ring
  rw [s1, fl_intCast 11 (by decide)]
  have s2 : ((11 : ℤ) : ℚ) / ((15:ℤ) : ℚ) = 11/15 := by norm_num
  rw [s2, flDiv15_11]
  have s3 : (1 : ℚ) - 6605279453476727/9007199254740992 = 2401919801264265/9007199254740992 := by norm_num
  rw [s3, flSubB_11]
  have s4 : (2401919801264265/9007199254740992 : ℚ) * 180 = 108086391056891925/2251799813685248 := by norm_num
  rw [s4, flMulC_11]
  norm_num [pyTrunc]

theorem fp15_case_p12 (e : ℤ) (_he : e.natAbs ≤ 9999) :
    computeStateFp (some e) (e + 12) 15 15 = (true, 35) := by
  rw [computeStateFp_active e (e + 12) 15 15 (by omega) (by omega)]
  rw [if_neg (by omega : ¬ e + 12 ≤ e)]
  have s1 : ((e + 12 : ℤ) : ℚ) - (e : ℚ) = ((12 : ℤ) : ℚ) := by push_cast; ring
  rw [s1, fl_intCast 12 (by decide)]
  have s2 : ((12 : ℤ) : ℚ) / ((15:ℤ) : ℚ) = 4/5 := by norm_num
  rw [s2, flDiv15_12]
  have s3 : (1 : ℚ) - 3602879701896397/4503599627370496 = 900719925474099/4503599627370496 := by norm_num
  rw [s3, flSubB_12]
  have s4 : (900719925474099/4503599627370496 : ℚ) * 180 = 40532396646334455/1125899906842624 := by norm_num
  rw [s4, flMulC_12]
  norm_num [pyTrunc]

theorem fp15_case_p13 (e : ℤ) (_he : e.natAbs ≤ 9999) :
    computeStateFp (some e) (e + 13) 15 15 = (true, 23) := by
  rw [computeStateFp_active e (e + 13) 15 15 (by omega) (by omega)]
  rw [if_neg (by omega : ¬ e + 13 ≤ e)]
  have s1 : ((e + 13 : ℤ) : ℚ) - (e : ℚ) = ((13 : ℤ) : ℚ) := by push_cast; ring
  rw [s1, fl_intCast 13 (by decide)]
  have s2 : ((13 : ℤ) : ℚ) / ((15:ℤ) : ℚ) = 13/15 := by norm_num
  rw [s2, flDiv15_13]
  have s3 : (1 : ℚ) - 1951559838527215/2251799813685248 = 300239975158033/2251799813685248 := by norm_num
  rw [s3, flSubB_13]
  have s4 : (300239975158033/2251799813685248 : ℚ) * 180 = 13510798882111485/562949953421312 := by norm_num
  rw [s4, flMulC_13]
  norm_num [pyTrunc]

theorem fp15_case_p14 (e : ℤ) (_he : e.natAbs ≤ 9999) :
    computeStateFp (some e) (e + 14) 15 15 = (true, 11) := by
  rw [computeStateFp_active e (e + 14) 15 15 (by omega) (by omega)]
  rw [if_neg (by omega : ¬ e + 14 ≤ e)]
  have s1 : ((e + 14 : ℤ) : ℚ) - (e : ℚ) = ((14 : ℤ) : ℚ) := by push_cast; ring
  rw [s1, fl_intCast 14 (by decide)]
  have s2 : ((14 : ℤ) : ℚ) / ((15:ℤ) : ℚ) = 14/15 := by norm_num
  rw [s2, flDiv15_14]
  have s3 : (1 : ℚ) - 4203359652212463/4503599627370496 = 300239975158033/4503599627370496 := by norm_num
  rw [s3, flSubB_14]
  have s4 : (300239975158033/4503599627370496 : ℚ) * 180 = 13510798882111485/1125899906842624 := by norm_num
  rw [s4, flMulC_14]
  norm_num [pyTrunc]

theorem fp15_case_p15 (e : ℤ) (_he : e.natAbs ≤ 9999) :
    computeStateFp (some e) (e + 15) 15 15 = (true, 0) := by
  rw [computeStateFp_active e (e + 15) 15 15 (by omega) (by omega)]
  rw [if_neg (by omega : ¬ e + 15 ≤ e)]
  have s1 : ((e + 15 : ℤ) : ℚ) - (e : ℚ) = ((15 : ℤ) : ℚ) := by push_cast; ring
  rw [s1, fl_intCast 15 (by decide)]
  have s2 : ((15 : ℤ) : ℚ) / ((15:ℤ) : ℚ) = ((1 : ℤ) : ℚ) := by norm_num
  rw [s2, fl_intCast 1 (by decide)]
  have s3 : (1 : ℚ) - ((1 : ℤ) : ℚ) = 0 := by norm_num
  rw [s3, fl_zero]
  have s4 : (0 : ℚ) * 180 = 0 := by norm_num
  rw [s4, fl_zero]
  norm_num [pyTrunc]

theorem fp15_table (e : Int) (he : e.natAbs ≤ 9999) :
    ∀ d : Int, -15 ≤ d → d ≤ 15 →
      computeStateFp (some e) (e + d) 15 15 = (true, alphaFp15 d) := by
  intro d h1 h2
  interval_cases d
  · rw [fp15_case_m15 e he]; norm_num [alphaFp15]
  · rw [fp15_case_m14 e he]; norm_num [alphaFp15]
  · rw [fp15_case_m13 e he]; norm_num [alphaFp15]
  · rw [fp15_case_m12 e he]; norm_num [alphaFp15]
  · rw [fp15_case_m11 e he]; norm_num [alphaFp15]
  · rw [fp15_case_m10 e he]; norm_num [alphaFp15]
  · rw [fp15_case_m9 e he]; norm_num [alphaFp15]
  · rw [fp15_case_m8 e he]; norm_num [alphaFp15]
  · rw [fp15_case_m7 e he]; norm_num [alphaFp15]
  · rw [fp15_case_m6 e he]; norm_num [alphaFp15]
  · rw [fp15_case_m5 e he]; norm_num [alphaFp15]
  · rw [fp15_case_m4 e he]; norm_num [alphaFp15]
  · rw [fp15_case_m3 e he]; norm_num [alphaFp15]
  · rw [fp15_case_m2 e he]; norm_num [alphaFp15]
  · rw [fp15_case_m1 e he]; norm_num [alphaFp15]
  · rw [fp15_case_0 e he]; norm_num [alphaFp15]
  · rw [fp15_case_p1 e he]; norm_num [alphaFp15]
  · rw [fp15_case_p2 e he]; norm_num [alphaFp15]
  · rw [fp15_case_p3 e he]; norm_num [alphaFp15]
  · rw [fp15_case_p4 e he]; norm_num [alphaFp15]
  · rw [fp15_case_p5 e he]; norm_num [alphaFp15]
  · rw [fp15_case_p6 e he]; norm_num [alphaFp15]
  · rw [fp15_case_p7 e he]; norm_num [alphaFp15]
  · rw [fp15_case_p8 e he]; norm_num [alphaFp15]
  · rw [fp15_case_p9 e he]; norm_num [alphaFp15]
  · rw [fp15_case_p10 e he]; norm_num [alphaFp15]
  · rw [fp15_case_p11 e he]; norm_num [alphaFp15]
  · rw [fp15_case_p12 e he]; norm_num [alphaFp15]
  · rw [fp15_case_p13 e he]; norm_num [alphaFp15]
  · rw [fp15_case_p14 e he]; norm_num [alphaFp15]
  · rw [fp15_case_p15 e he]; norm_num [alphaFp15]

theorem fp15_main (e sim : Int) (he : e.natAbs ≤ 9999)
    (h1 : e - 15 ≤ sim) (h2 : sim ≤ e + 15) :
    computeStateFp (some e) sim 15 15 = (true, alphaFp15 (sim - e)) := by
  have h := fp15_table e he (sim - e) (by omega) (by omega)
  rw [show e + (sim - e) = sim by ring] at h
  exact h

/-- Inside the inclusive window the row is active and its alpha is the
truncation of `f * 180`. -/
theorem compute_state_active (e sim pre post : Int)
    (hlo : e - pre ≤ sim) (hhi : sim ≤ e + post) :
    compute_state (some e) sim pre post =
      (true, pyTrunc (fadeFraction e sim pre post * 180)) := by
  have hact : isActive (some e) sim pre post = true := by
    simp only [isActive, Bool.and_eq_true, decide_eq_true_eq]
    exact ⟨hlo, hhi⟩
  have hg : ¬ (sim < e - pre ∨ e + post < sim) := by omega
  simp [compute_state, hact, compute_color, hg]

/-- C1 (amended): an input whose decimal digit runs are all of length 1-2
(no three consecutive digits) yields no match; but a run of five or more
digits does match — the extractor returns the value of its first four
digits, e.g. `extract_year "eruption 12345" = some 1234`. -/
theorem claim_C1 :
    (∀ s : String, hasThreeConsecDigits s.data = false → extract_year s = none) ∧
    extract_year "eruption 12345" = some 1234 := by
  constructor
  · intro s h
    simp [extract_year, searchYear_eq_none s.data h]
  · decide

/-- C1 counterexample: the claim "no run of more than 4 digits yields a
match" is false — on `"eruption 12345"` (a 5-digit run) `extract_year` does
not return absent. -/
theorem claim_C1_counterexample : ¬ (extract_year "eruption 12345" = none) := by
  decide

/-- C1 witness: a concrete text with only a 2-digit run returns absent. -/
theorem claim_C1_witness :
    hasThreeConsecDigits "circa 79 AD".data = false ∧ extract_year "circa 79 AD" = none :=
  ⟨by decide, claim_C1.1 "circa 79 AD" (by decide)⟩

/-- C2: when the eruption year is absent or `sim_year` lies strictly outside
the fade window, `compute_state` returns inactive with the fixed dormant
alpha 100. -/
theorem claim_C2 (ey : Option Int) (sim pre post : Int)
    (h : ey = none ∨ ∃ e, ey = some e ∧ (sim < e - pre ∨ e + post < sim)) :
    compute_state ey sim pre post = (false, 100) := by
  rcases h with rfl | ⟨e, rfl, he⟩
  · rfl
  · have hact : isActive (some e) sim pre post = false := by
      simp only [isActive, Bool.and_eq_false_iff, decide_eq_false_iff_not]
      omega
    simp [compute_state, hact, base_color]

/-- C2 witness: an absent eruption year, and a present-but-distant one. -/
theorem claim_C2_witness : compute_state none 2000 15 15 = (false, 100) ∧
    compute_state (some 1991) 1900 15 15 = (false, 100) :=
  ⟨claim_C2 none 2000 15 15 (Or.inl rfl),
   claim_C2 (some 1991) 1900 15 15 (Or.inr ⟨1991, rfl, by decide⟩)⟩

/-- Exact-rational semantics of the fade: inside the window the state is
active with `alpha = ⌊f * 180⌋` for the spec's fade fraction `f`, and this
alpha lies in `[0, 180]`. -/
theorem compute_state_floor_rat (e sim pre post : Int) (hpre : 0 < pre) (hpost : 0 < post)
    (hlo : e - pre ≤ sim) (hhi : sim ≤ e + post) :
    compute_state (some e) sim pre post = (true, ⌊fadeFraction e sim pre post * 180⌋) ∧
    0 ≤ ⌊fadeFraction e sim pre post * 180⌋ ∧ ⌊fadeFraction e sim pre post * 180⌋ ≤ 180 := by
  have hpreQ : (0 : ℚ) < (pre : ℚ) := by exact_mod_cast hpre
  have hpostQ : (0 : ℚ) < (post : ℚ) := by exact_mod_cast hpost
  have hloQ : (e : ℚ) - pre ≤ sim := by exact_mod_cast hlo
  have hhiQ : (sim : ℚ) ≤ e + post := by exact_mod_cast hhi
  have hf0 : 0 ≤ fadeFraction e sim pre post := by
    rw [fadeFraction]
    split
    · apply div_nonneg _ hpreQ.le
      linarith
    · next hns =>
      have hdiv : ((sim : ℚ) - e) / post ≤ 1 := by
        rw [div_le_one hpostQ]
        linarith
      linarith
  have hf1 : fadeFraction e sim pre post ≤ 1 := by
    rw [fadeFraction]
    split
    · next hle =>
      have hleQ : (sim : ℚ) ≤ e := by exact_mod_cast hle
      rw [div_le_one hpreQ]
      linarith
    · next hns =>
      have hltQ : (e : ℚ) < sim := by
        have := lt_of_not_le hns
        exact_mod_cast this
      have hdiv : 0 ≤ ((sim : ℚ) - e) / post := by
        apply div_nonneg _ hpostQ.le
        linarith
      linarith
  have h180 : 0 ≤ fadeFraction e sim pre post * 180 := by
    have : (0 : ℚ) ≤ 180 := by norm_num
    exact mul_nonneg hf0 this
  have h180' : fadeFraction e sim pre post * 180 ≤ 180 := by
    nlinarith
  have hfl0 : 0 ≤ ⌊fadeFraction e sim pre post * 180⌋ := Int.floor_nonneg.mpr h180
  have hfl1 : ⌊fadeFraction e sim pre post * 180⌋ ≤ 180 := by
    have h1 := Int.floor_le_floor h180'
    have h2 : (⌊(180 : ℚ)⌋ : Int) = 180 := by norm_num
    omega
  refine ⟨?_, hfl0, hfl1⟩
  rw [compute_state_active e sim pre post hlo hhi, pyTrunc, if_pos h180]

/-- C3 (amended): inside the window (positive fade parameters) the state is
active, and the exact-rational value `⌊f * 180⌋` of the spec's fade fraction
lies in `[0, 180]` and is returned under exact rational evaluation of the
division; under the program's binary64 float arithmetic the alpha can fall
exactly one below `⌊f * 180⌋`: at the fade parameters the program actually
uses (`pre_fade = post_fade = 15`, eruption years of at most 4 digits) the
computed alpha follows the explicit table `alphaFp15`, which equals
`⌊f * 180⌋` at every window offset except `sim_year - eruption_year` in
{12, 13, 14}, where it is 35, 23, 11 instead of 36, 24, 12 — always within
`[0, 180]` and within one of `⌊f * 180⌋`. -/
theorem claim_C3 :
    (∀ e sim pre post : Int, 0 < pre → 0 < post → e - pre ≤ sim → sim ≤ e + post →
      compute_state (some e) sim pre post = (true, ⌊fadeFraction e sim pre post * 180⌋) ∧
      0 ≤ ⌊fadeFraction e sim pre post * 180⌋ ∧ ⌊fadeFraction e sim pre post * 180⌋ ≤ 180) ∧
    (∀ e sim : Int, e.natAbs ≤ 9999 → e - 15 ≤ sim → sim ≤ e + 15 →
      computeStateFp (some e) sim 15 15 = (true, alphaFp15 (sim - e)) ∧
      0 ≤ alphaFp15 (sim - e) ∧ alphaFp15 (sim - e) ≤ 180 ∧
      (alphaFp15 (sim - e) = ⌊fadeFraction e sim 15 15 * 180⌋ ∨
       alphaFp15 (sim - e) = ⌊fadeFraction e sim 15 15 * 180⌋ - 1)) := by
  constructor
  · intro e sim pre post hpre hpost hlo hhi
    exact compute_state_floor_rat e sim pre post hpre hpost hlo hhi
  · intro e sim hE h1 h2
    refine ⟨fp15_main e sim hE h1 h2, (alphaFp15_range (sim - e) (by omega) (by omega)).1,
      (alphaFp15_range (sim - e) (by omega) (by omega)).2, alphaFp15_dev e sim h1 h2⟩

/-- C3 counterexample: the original claim asserts `alpha = ⌊f * 180⌋` on
every in-window call with positive fade windows; at the program's own fade
parameters 15/15, eruption year 1991 and simulated year 2003 the binary64
pipeline returns alpha 35 while `⌊f * 180⌋ = 36`. -/
theorem claim_C3_counterexample :
    computeStateFp (some 1991) 2003 15 15 = (true, 35) ∧
    (35 : Int) ≠ ⌊fadeFraction 1991 2003 15 15 * 180⌋ := by
  constructor
  · have h := fp15_case_p12 1991 (by decide)
    rw [show (1991 : ℤ) + 12 = 2003 by norm_num] at h
    exact h
  · rw [floorFade15_post 1991 2003 (by decide)]
    decide

/-- C3 witness: the rational conjunct at eruption year 1991, sim 1980, fade
15/15; the binary64 conjunct at the deviating offset +12 (sim 2003). -/
theorem claim_C3_witness :
    (compute_state (some 1991) 1980 15 15 = (true, ⌊fadeFraction 1991 1980 15 15 * 180⌋) ∧
     0 ≤ ⌊fadeFraction 1991 1980 15 15 * 180⌋ ∧ ⌊fadeFraction 1991 1980 15 15 * 180⌋ ≤ 180) ∧
    (computeStateFp (some 1991) 2003 15 15 = (true, alphaFp15 (2003 - 1991)) ∧
     0 ≤ alphaFp15 (2003 - 1991) ∧ alphaFp15 (2003 - 1991) ≤ 180 ∧
     (alphaFp15 (2003 - 1991) = ⌊fadeFraction 1991 2003 15 15 * 180⌋ ∨
      alphaFp15 (2003 - 1991) = ⌊fadeFraction 1991 2003 15 15 * 180⌋ - 1)) :=
  ⟨claim_C3.1 1991 1980 15 15 (by decide) (by decide) (by decide) (by decide),
   claim_C3.2 1991 2003 (by decide) (by decide) (by decide)⟩

/-- C4: alpha peaks at exactly 180 at the eruption year and is 0 at both
(inclusive, still active) window boundaries. -/
theorem claim_C4 (e pre post : Int) (hpre : 0 < pre) (hpost : 0 < post) :
    compute_state (some e) e pre post = (true, 180) ∧
    compute_state (some e) (e - pre) pre post = (true, 0) ∧
    compute_state (some e) (e + post) pre post = (true, 0) := by
  have hpreQ : ((pre : ℚ)) ≠ 0 := by
    have : (0 : ℚ) < (pre : ℚ) := by exact_mod_cast hpre
    exact this.ne'
  have hpostQ : ((post : ℚ)) ≠ 0 := by
    have : (0 : ℚ) < (post : ℚ) := by exact_mod_cast hpost
    exact this.ne'
  have h1 : fadeFraction e e pre post = 1 := by
    rw [fadeFraction, if_pos le_rfl]
    field_simp
  have h2 : fadeFraction e (e - pre) pre post = 0 := by
    rw [fadeFraction, if_pos (by omega : e - pre ≤ e)]
    push_cast
    ring_nf
  have h3 : fadeFraction e (e + post) pre post = 0 := by
    rw [fadeFraction, if_neg (by omega : ¬ e + post ≤ e)]
    push_cast
    field_simp
  refine ⟨?_, ?_, ?_⟩
  · rw [compute_state_active e e pre post (by omega) (by omega), h1]
    norm_num [pyTrunc]
  · rw [compute_state_active e (e - pre) pre post (by omega) (by omega), h2]
    norm_num [pyTrunc]
  · rw [compute_state_active e (e + post) pre post (by omega) (by omega), h3]
    norm_num [pyTrunc]

/-- C4 witness: eruption year 1991, fade 15/15: peak at 1991, zeros at 1976
and 2006, all still active. -/
theorem claim_C4_witness :
    compute_state (some 1991) 1991 15 15 = (true, 180) ∧
    compute_state (some 1991) (1991 - 15) 15 15 = (true, 0) ∧
    compute_state (some 1991) (1991 + 15) 15 15 = (true, 0) :=
  claim_C4 1991 15 15 (by decide) (by decide)

/-- C5: `extract_year` agrees everywhere with the spec-side description —
the first (leftmost) substring of an optional literal minus followed by 3-4
decimal digits, parsed signedly — and on the spec's examples the sign is
honored only for a literal minus: `"1991 CE" ↦ 1991`, `"500 BC" ↦ 500`. -/
theorem claim_C5 :
    (∀ s : String, extract_year s = extractYearSpec s) ∧
    extract_year "1991 CE" = some 1991 ∧
    extract_year "500 BC" = some 500 := by
  refine ⟨?_, by decide, by decide⟩
  intro s
  have h := searchYear_eq_spec s.data
  rw [extractYearSpec, ← h, extract_year]
  cases searchYear s.data <;> simp

/-- C6: `extract_year` never raises — the explicit-exception model returns
`ok` on every input, and the unmatched input `"Unknown"` yields absent. -/
theorem claim_C6 :
    (∀ s : String, extractYearExc s = .ok (extract_year s)) ∧
    extract_year "Unknown" = none :=
  ⟨extractYearExc_ok, by decide⟩

/-- C7: with positive fade windows `compute_color` is total (the explicit
division-by-zero model always returns `ok` with the same color); with
`pre_fade = 0` the division-by-zero branch is reachable (at
`sim_year = eruption_year`, here 1000). -/
theorem claim_C7 :
    (∀ (ey : Option Int) (sim pre post : Int), 0 < pre → 0 < post →
      computeColorExc ey sim pre post = .ok (compute_color ey sim pre post)) ∧
    computeColorExc (some 1000) 1000 0 15 = .error () := by
  constructor
  · intro ey sim pre post hpre hpost
    match ey with
    | none => rfl
    | some e =>
      by_cases hg : sim < e - pre ∨ e + post < sim
      · simp [computeColorExc, compute_color, hg]
      · have hpz : ¬ pre = 0 := by omega
        have hqz : ¬ post = 0 := by omega
        by_cases hse : sim ≤ e
        · simp [computeColorExc, compute_color, hg, hse, hpz]
        · simp [computeColorExc, compute_color, hg, hse, hqz]
  · norm_num [computeColorExc]

/-- C7 witness: at fade 15/15 the error-aware model agrees with the total
function. -/
theorem claim_C7_witness :
    computeColorExc (some 1991) 1991 15 15 = .ok (compute_color (some 1991) 1991 15 15) :=
  claim_C7.1 (some 1991) 1991 15 15 (by decide) (by decide)

/-- C8: `compute_state` is deterministic and pure — equal arguments give
equal results, with no dependence on any ambient state (the embedding shows
the result is a function of the four arguments alone). -/
theorem claim_C8 (ey ey' : Option Int) (sim sim' pre pre' post post' : Int)
    (h1 : ey = ey') (h2 : sim = sim') (h3 : pre = pre') (h4 : post = post') :
    compute_state ey sim pre post = compute_state ey' sim' pre' post' := by
  subst h1; subst h2; subst h3; subst h4
  rfl

/-- C8 witness: two calls with identical concrete arguments coincide. -/
theorem claim_C8_witness :
    compute_state (some 1991) 1995 15 15 = compute_state (some 1991) 1995 15 15 :=
  claim_C8 (some 1991) (some 1991) 1995 1995 15 15 15 15 rfl rfl rfl rfl

/-- C9: rendering a frame never mutates the collection — `update_map` leaves
the dataframe exactly as it was, and every record appearing in either layer
is one of the original records, all fields (including `eruption_year`)
unchanged. -/
theorem claim_C9 (df : List VolcanoRecord) (sim pre post : Int) :
    (update_map df sim pre post).df_after = df ∧
    (∀ row ∈ (update_map df sim pre post).active, row.record ∈ df) ∧
    (∀ row ∈ (update_map df sim pre post).inactive, row.record ∈ df) := by
  refine ⟨rfl, ?_, ?_⟩
  · intro row hrow
    simp only [update_map, List.mem_map, List.mem_filter] at hrow
    obtain ⟨r, ⟨hr, _⟩, hrw⟩ := hrow
    rw [← hrw]
    exact hr
  · intro row hrow
    simp only [update_map, List.mem_map, List.mem_filter] at hrow
    obtain ⟨r, ⟨hr, _⟩, hrw⟩ := hrow
    rw [← hrw]
    exact hr

/-- C9 witness: one concrete record; the frame returns the collection
untouched and the rendered active row carries that very record. -/
theorem claim_C9_witness :
    (update_map [sampleRecord] 1991 15 15).df_after = [sampleRecord] ∧
    sampleRow.record ∈ [sampleRecord] :=
  ⟨(claim_C9 [sampleRecord] 1991 15 15).1,
   (claim_C9 [sampleRecord] 1991 15 15).2.1 sampleRow (by
     simp [update_map, sampleRow, sampleRecord, isActive])⟩

/-- C10: `extract_year` first coerces its argument to a string, so the
integer 1991 maps to 1991, `None` and `NaN` (string forms without a 3-4
digit run) map to absent, and no supported input value raises. -/
theorem claim_C10 :
    extract_year_py (.pint 1991) = some 1991 ∧
    extract_year_py .pnone = none ∧
    extract_year_py .pnan = none ∧
    ∀ v : PyVal, extractYearExc (pyStr v) = .ok (extract_year_py v) :=
  ⟨by decide, by decide, by decide, fun v => extractYearExc_ok (pyStr v)⟩

end VolcanoExplorer
